import Mathlib

/-!
Verification of the `packer` archive codec (BAG and TAR backends).

The Rust sources are shallowly embedded: bytes are `Nat` (values < 256 on
well-formed data), byte buffers are `List Nat`, host paths (`PathBuf`) are
their underlying OS byte strings (`List Nat`), machine integers are `Nat`
or `Int` with explicit reductions modulo `2 ^ w` where the source performs
fixed-width arithmetic, and fallible Rust functions return `Except`.
-/

set_option maxRecDepth 100000

deriving instance DecidableEq for Except

namespace Packer

/-- Little-endian byte decoding shared by both backends: the inverse of
`to_le_bytes`, i.e. `u32::from_le_bytes` / `u64::from_le_bytes`. -/
def leDecode (bs : List Nat) : Nat :=
  bs.foldr (fun b acc => b + 256 * acc) 0

/-- `u32::to_le_bytes`: the four little-endian bytes of a 32-bit value. -/
def leBytes4 (v : Nat) : List Nat :=
  [v % 256, v / 256 % 256, v / 65536 % 256, v / 16777216 % 256]

/-- `u64::to_le_bytes`: the eight little-endian bytes of a 64-bit value. -/
def leBytes8 (v : Nat) : List Nat :=
  [v % 256, v / 256 % 256, v / 65536 % 256, v / 16777216 % 256,
   v / 4294967296 % 256, v / 1099511627776 % 256,
   v / 281474976710656 % 256, v / 72057594037927936 % 256]

/-- `i64::to_le_bytes`: two's complement little-endian encoding. -/
def leBytesI64 (v : Int) : List Nat :=
  leBytes8 (v % 18446744073709551616).toNat

/-- `i64::from_le_bytes`: two's complement little-endian decoding of 8 bytes. -/
def leDecodeI64 (bs : List Nat) : Int :=
  let n := leDecode bs
  if n < 9223372036854775808 then (n : Int) else (n : Int) - 18446744073709551616

/-- A UTF-8 continuation byte (`10xxxxxx`). -/
def utf8Cont (b : Nat) : Bool := 128 ≤ b && b < 192

/-- Validity of a byte string as UTF-8, exactly as Rust's `str::from_utf8`
succeeds (shortest-form encodings, no surrogates, max U+10FFFF). -/
def utf8Valid : List Nat → Bool
  | [] => true
  | b :: rest =>
    if b < 128 then utf8Valid rest
    else if 194 ≤ b && b ≤ 223 then
      match rest with
      | c1 :: r => utf8Cont c1 && utf8Valid r
      | [] => false
    else if b = 224 then
      match rest with
      | c1 :: c2 :: r => (160 ≤ c1 && c1 < 192) && utf8Cont c2 && utf8Valid r
      | _ => false
    else if (225 ≤ b && b ≤ 236) || b = 238 || b = 239 then
      match rest with
      | c1 :: c2 :: r => utf8Cont c1 && utf8Cont c2 && utf8Valid r
      | _ => false
    else if b = 237 then
      match rest with
      | c1 :: c2 :: r => (128 ≤ c1 && c1 < 160) && utf8Cont c2 && utf8Valid r
      | _ => false
    else if b = 240 then
      match rest with
      | c1 :: c2 :: c3 :: r =>
        (144 ≤ c1 && c1 < 192) && utf8Cont c2 && utf8Cont c3 && utf8Valid r
      | _ => false
    else if 241 ≤ b && b ≤ 243 then
      match rest with
      | c1 :: c2 :: c3 :: r =>
        utf8Cont c1 && utf8Cont c2 && utf8Cont c3 && utf8Valid r
      | _ => false
    else if b = 244 then
      match rest with
      | c1 :: c2 :: c3 :: r =>
        (128 ≤ c1 && c1 < 144) && utf8Cont c2 && utf8Cont c3 && utf8Valid r
      | _ => false
    else false

/-- One bit step of reflected CRC-32 (polynomial `0xEDB88320`), as performed
by the `crc_any` crate's `CRCu32::crc32()`. -/
def crc32Step (crc : Nat) : Nat :=
  if crc % 2 = 1 then (crc / 2) ^^^ 3988292384 else crc / 2

def crc32Bits : Nat → Nat → Nat
  | 0, crc => crc
  | n + 1, crc => crc32Bits n (crc32Step crc)

def crc32Byte (crc b : Nat) : Nat := crc32Bits 8 (crc ^^^ b)

/-- The digest loop of `CRCu32::digest`: update the running CRC with each
byte in turn. The intermediate CRC is scrutinised at every step so that the
embedding evaluates strictly, as the Rust in-place update does; see
`crc32Fold_eq_foldl`. -/
def crc32Fold : List Nat → Nat → Nat
  | [], crc => crc
  | b :: rest, crc =>
    match crc32Byte crc b with
    | 0 => crc32Fold rest 0
    | c + 1 => crc32Fold rest (c + 1)

/-- CRC-32/ISO-HDLC of a byte string: init `0xFFFFFFFF`, reflected,
xorout `0xFFFFFFFF`; the checksum used by both backends. -/
def crc32 (data : List Nat) : Nat :=
  crc32Fold data 4294967295 ^^^ 4294967295

/-! ## BAG backend (`src/backend/bag/byteorder.rs`, `src/backend/bag/header.rs`,
`src/backend/bag.rs`) -/

namespace Bag

/-- `bag::byteorder::u32_to_bytes`. -/
def u32_to_bytes (v : Nat) : List Nat := leBytes4 v

/-- `bag::byteorder::bytes_to_u32`. -/
def bytes_to_u32 (b : List Nat) : Nat := leDecode b

/-- `bag::byteorder::u64_to_bytes`. -/
def u64_to_bytes (v : Nat) : List Nat := leBytes8 v

/-- `bag::byteorder::bytes_to_u64`. -/
def bytes_to_u64 (b : List Nat) : Nat := leDecode b

/-- `bag::byteorder::i64_to_bytes`. -/
def i64_to_bytes (v : Int) : List Nat := leBytesI64 v

/-- `bag::byteorder::bytes_to_i64`. -/
def bytes_to_i64 (b : List Nat) : Int := leDecodeI64 b

/-- `bag::byteorder::path_to_bytes`: `path.to_str().map(|s|
s.as_bytes().to_vec()).unwrap_or_default()` — on a non-UTF-8 path it
returns the empty byte vector instead of failing. -/
def path_to_bytes (p : List Nat) : List Nat :=
  if utf8Valid p then p else []

/-- `bag::byteorder::bytes_to_path`: `str::from_utf8(array).unwrap_or("")`
then `PathBuf::from` — on non-UTF-8 bytes it returns the empty path instead
of failing; no NUL-trimming is applied. -/
def bytes_to_path (b : List Nat) : List Nat :=
  if utf8Valid b then b else []

/-- `bag::header::TypeFlag` (`#[repr(u8)]` with values 0, 1, 2). -/
inductive TypeFlag
  | Regular
  | HardLink
  | SymLink
deriving DecidableEq

/-- The `TypeFlag as u8` cast used by the serializer. -/
def TypeFlag.toByte : TypeFlag → Nat
  | .Regular => 0
  | .HardLink => 1
  | .SymLink => 2

/-- `bag::header::TypeFlag::from_byte`. -/
def TypeFlag.from_byte (b : Nat) : Except String TypeFlag :=
  if b = 48 || b = 0 then .ok .Regular
  else if b = 49 || b = 1 then .ok .HardLink
  else if b = 50 || b = 2 then .ok .SymLink
  else .error "Invalid typeflag byte"

/-- `bag::header::FileHeader`: the high-level entry descriptor. Paths are
OS byte strings. -/
structure FileHeader where
  file_name : List Nat
  file_size : Nat
  file_mode : Nat
  user_id : Nat
  group_id : Nat
  created_at : Int
  last_modified : Int
  type_flag : TypeFlag
  link_name : Option (List Nat)
deriving DecidableEq

/-- `bag::header::FileHeaderLL`: the binary layout of the file header. -/
structure FileHeaderLL where
  file_name : List Nat
  file_name_size : List Nat
  file_size : List Nat
  file_mode : List Nat
  user_id : List Nat
  group_id : List Nat
  created_at : List Nat
  last_modified : List Nat
  type_flag : Nat
  link_name : List Nat
  link_name_size : List Nat
  checksum : List Nat
deriving DecidableEq

/-- `bag::header::FileHeaderLL::new` (the `safe_usize_to_u64` guard can
never fire on a 64-bit host, so the construction is total). -/
def FileHeaderLL.new (h : FileHeader) : FileHeaderLL :=
  let file_name_bytes := path_to_bytes h.file_name
  let link_pair :=
    match h.link_name with
    | some ln => (path_to_bytes ln, (path_to_bytes ln).length)
    | none => ([], 0)
  { file_name := file_name_bytes
    file_name_size := u64_to_bytes file_name_bytes.length
    file_size := u64_to_bytes h.file_size
    file_mode := u32_to_bytes h.file_mode
    user_id := u32_to_bytes h.user_id
    group_id := u32_to_bytes h.group_id
    created_at := i64_to_bytes h.created_at
    last_modified := i64_to_bytes h.last_modified
    type_flag := h.type_flag.toByte
    link_name := link_pair.1
    link_name_size := u64_to_bytes link_pair.2
    checksum := [0, 0, 0, 0] }

/-- `bag::header::FileHeaderLL::to_bytes`: the 57 serialized header bytes
(field order as in the source; the variable-length names are not part of
the header block). -/
def FileHeaderLL.to_bytes (ll : FileHeaderLL) : List Nat :=
  ll.file_name_size ++ ll.file_size ++ ll.file_mode ++ ll.user_id ++
    ll.group_id ++ ll.created_at ++ ll.last_modified ++ [ll.type_flag] ++
    ll.link_name_size ++ ll.checksum

/-- `bag::header::FileHeaderLL::calculate_checksum`: CRC-32 of `to_bytes`
(assumes the checksum field is currently zero). -/
def FileHeaderLL.calculate_checksum (ll : FileHeaderLL) : Nat :=
  crc32 ll.to_bytes

/-- `bag::header::FileHeaderLL::set_checksum`. -/
def FileHeaderLL.set_checksum (ll : FileHeaderLL) (c : Nat) : FileHeaderLL :=
  { ll with checksum := u32_to_bytes c }

/-- `bag::header::HeaderBlock`. -/
structure HeaderBlock where
  header : List Nat
  file_name : List Nat
  link_name : List Nat
deriving DecidableEq

/-- `bag::header::FileHeaderLL::serialize`: pad the 57 serialized bytes to
a 64-byte block. -/
def FileHeaderLL.serialize (ll : FileHeaderLL) : HeaderBlock :=
  { header := ll.to_bytes ++ List.replicate (64 - ll.to_bytes.length) 0
    file_name := ll.file_name
    link_name := ll.link_name }

/-- `(bs.drop i).take n`: the subslice `bs[i..i+n]`. -/
def slice (bs : List Nat) (i n : Nat) : List Nat := (bs.drop i).take n

/-- `bag::header::FileHeaderLL::from_bytes`: split a 64-byte block into
fields; `file_name` and `link_name` are left empty. -/
def FileHeaderLL.from_bytes (bs : List Nat) : Except String FileHeaderLL :=
  if bs.length ≠ 64 then .error "Invalid header block length"
  else
    .ok
      { file_name := []
        file_name_size := slice bs 0 8
        file_size := slice bs 8 8
        file_mode := slice bs 16 4
        user_id := slice bs 20 4
        group_id := slice bs 24 4
        created_at := slice bs 28 8
        last_modified := slice bs 36 8
        type_flag := bs.getD 44 0
        link_name := []
        link_name_size := slice bs 45 8
        checksum := slice bs 53 4 }

/-- Errors of the BAG decoding path, with the data the source interpolates
into its error messages. -/
inductive BagError
  | invalidBlockLength (got : Nat)
  | checksumMismatch (file : List Nat) (stored calculated : Nat)
  | invalidTypeFlag (b : Nat)
  | truncated
deriving DecidableEq

/-- `bag::header::FileHeader::serialize`: build the low-level header,
compute the CRC with the checksum field zeroed, store it, pad to 64 bytes. -/
def FileHeader.serialize (h : FileHeader) : HeaderBlock :=
  let ll := FileHeaderLL.new h
  let c := ll.calculate_checksum
  (ll.set_checksum c).serialize

/-- `bag::header::FileHeader::deserialize`: split the block, verify the
checksum (recomputed with the checksum field zeroed), parse the type flag,
and return the header (name fields empty, `link_name = None`) together
with the decoded `file_name_size` and `link_name_size`. -/
def FileHeader.deserialize (bs : List Nat) :
    Except BagError (FileHeader × Nat × Nat) :=
  match FileHeaderLL.from_bytes bs with
  | .error _ => .error (.invalidBlockLength bs.length)
  | .ok ll0 =>
    let stored_checksum := bytes_to_u32 ll0.checksum
    let ll := ll0.set_checksum 0
    let calc_checksum := ll.calculate_checksum
    if calc_checksum ≠ stored_checksum then
      .error (.checksumMismatch (bytes_to_path ll.file_name) stored_checksum
        calc_checksum)
    else
      match TypeFlag.from_byte ll.type_flag with
      | .error _ => .error (.invalidTypeFlag ll.type_flag)
      | .ok tf =>
        .ok
          ({ file_name := bytes_to_path ll.file_name
             file_size := bytes_to_u64 ll.file_size
             file_mode := bytes_to_u32 ll.file_mode
             user_id := bytes_to_u32 ll.user_id
             group_id := bytes_to_u32 ll.group_id
             created_at := bytes_to_i64 ll.created_at
             last_modified := bytes_to_i64 ll.last_modified
             type_flag := tf
             link_name := none },
           bytes_to_u64 ll.file_name_size, bytes_to_u64 ll.link_name_size)

/-- `bag.rs`: `const EOF_MARKER: [u8; 128] = [0; 128]`, written by
`write_epilogue`. -/
def EOF_MARKER : List Nat := List.replicate 128 0

/-- `bag.rs`: `is_eoa` compares the header buffer against `[0u8; 64]`. -/
def is_eoa (b : List Nat) : Bool := b == List.replicate 64 0

/-- `bag.rs`: `header_block_size`. -/
def header_block_size : Nat := 64

/-- `bag.rs`: `unpack_header` — deserialize the 64-byte block, then read
exactly `file_name_size` further bytes from the reader as the file name.
The link name is never read (that code is commented out in the source) and
the decoded `link_name_size` is ignored. Returns the completed header and
the remaining reader stream. -/
def unpack_header (block stream : List Nat) :
    Except BagError (FileHeader × List Nat) :=
  match FileHeader.deserialize block with
  | .error e => .error e
  | .ok (header, filename_size, _linkname_size) =>
    if stream.length < filename_size then .error .truncated
    else
      .ok ({ header with file_name := bytes_to_path (stream.take filename_size) },
        stream.drop filename_size)

/-- Is the decode result a checksum-mismatch error? -/
def isChecksumMismatch : Except BagError (FileHeader × Nat × Nat) → Bool
  | .error (.checksumMismatch _ _ _) => true
  | _ => false

/-- The byte string over which `FileHeader::deserialize` recomputes the
CRC: the decoded fixed-width fields of the block re-serialised with the
checksum field zeroed (that is, bytes 0..53 of the block followed by four
zero bytes — the padding bytes 57..64 are not covered). -/
def recomputedRegion (bs : List Nat) : List Nat :=
  slice bs 0 8 ++ slice bs 8 8 ++ slice bs 16 4 ++ slice bs 20 4 ++
    slice bs 24 4 ++ slice bs 28 8 ++ slice bs 36 8 ++ [bs.getD 44 0] ++
    slice bs 45 8 ++ [0, 0, 0, 0]

/-- The checksum recomputation the specification describes (`Modelled from
the spec:` CRC-32 of the fully serialised 64-byte header block with the
checksum field set to zero): the whole block, bytes 53..57 zeroed. -/
def specBlockCrc (bs : List Nat) : Nat :=
  crc32 (bs.take 53 ++ [0, 0, 0, 0] ++ bs.drop 57)

end Bag

/-! ## TAR backend (`src/byteorder.rs`, `src/header.rs`, `src/backend/tar.rs`) -/

namespace Tar

/-- `byteorder::u32_to_bytes`: 4 little-endian bytes zero-padded to 8. -/
def u32_to_bytes (v : Nat) : List Nat := leBytes4 v ++ [0, 0, 0, 0]

/-- `byteorder::bytes_to_u32`: decode the first 4 of 8 bytes. -/
def bytes_to_u32 (b : List Nat) : Nat := leDecode (b.take 4)

/-- `byteorder::u64_to_bytes`: 8 little-endian bytes zero-padded to 12. -/
def u64_to_bytes (v : Nat) : List Nat := leBytes8 v ++ [0, 0, 0, 0]

/-- `byteorder::bytes_to_u64`: decode the first 8 of 12 bytes. -/
def bytes_to_u64 (b : List Nat) : Nat := leDecode (b.take 8)

/-- `byteorder::i64_to_bytes`: 8 two's complement little-endian bytes
zero-padded to 12. -/
def i64_to_bytes (v : Int) : List Nat := leBytesI64 v ++ [0, 0, 0, 0]

/-- `byteorder::bytes_to_i64`: decode the first 8 of 12 bytes. -/
def bytes_to_i64 (b : List Nat) : Int := leDecodeI64 (b.take 8)

/-- `byteorder::path_to_bytes`: copy at most the first 100 bytes of the
path's UTF-8 form into a zeroed 100-byte buffer; a longer path is silently
truncated, a non-UTF-8 path yields an all-zero buffer. -/
def path_to_bytes (p : List Nat) : List Nat :=
  if utf8Valid p then p.take 100 ++ List.replicate (100 - min p.length 100) 0
  else List.replicate 100 0

/-- `byteorder::bytes_to_path`: take the bytes before the first NUL, decode
as UTF-8 (empty path on failure). -/
def bytes_to_path (arr : List Nat) : List Nat :=
  if utf8Valid (arr.takeWhile (fun b => !(b == 0))) then
    arr.takeWhile (fun b => !(b == 0))
  else []

/-- `header::TypeFlag`. -/
inductive TypeFlag
  | Regular
  | HardLink
  | SymLink
deriving DecidableEq

/-- `header::TypeFlag::as_byte`: ASCII digits. -/
def TypeFlag.as_byte : TypeFlag → Nat
  | .Regular => 48
  | .HardLink => 49
  | .SymLink => 50

/-- `header::TypeFlag::from_byte`. -/
def TypeFlag.from_byte (b : Nat) : Except String TypeFlag :=
  if b = 48 || b = 0 then .ok .Regular
  else if b = 49 || b = 1 then .ok .HardLink
  else if b = 50 || b = 2 then .ok .SymLink
  else .error "Invalid typeflag byte"

/-- `header::Header`: the high-level TAR entry header (no `created_at`, no
`link_name`; both are absent from the source struct). -/
structure Header where
  file_name : List Nat
  file_mode : Nat
  user_id : Nat
  group_id : Nat
  file_size : Nat
  last_modified : Int
  type_flag : TypeFlag
deriving DecidableEq

/-- `header::HeaderLL`: the fixed-width binary layout. -/
structure HeaderLL where
  file_name : List Nat
  file_mode : List Nat
  user_id : List Nat
  group_id : List Nat
  file_size : List Nat
  last_modified : List Nat
  checksum : List Nat
  type_flag : Nat
  link_name : List Nat
deriving DecidableEq

/-- `header::HeaderLL::new`. -/
def HeaderLL.new (h : Header) : HeaderLL :=
  { file_name := path_to_bytes h.file_name
    file_mode := u32_to_bytes h.file_mode
    user_id := u32_to_bytes h.user_id
    group_id := u32_to_bytes h.group_id
    file_size := u64_to_bytes h.file_size
    last_modified := i64_to_bytes h.last_modified
    checksum := [0, 0, 0, 0, 0, 0, 0, 0]
    type_flag := h.type_flag.as_byte
    link_name := List.replicate 100 0 }

/-- `header::HeaderLL::to_bytes`: the 257 serialized header bytes. -/
def HeaderLL.to_bytes (ll : HeaderLL) : List Nat :=
  ll.file_name ++ ll.file_mode ++ ll.user_id ++ ll.group_id ++ ll.file_size ++
    ll.last_modified ++ ll.checksum ++ [ll.type_flag] ++ ll.link_name

/-- `header::HeaderLL::calculate_checksum`. -/
def HeaderLL.calculate_checksum (ll : HeaderLL) : Nat := crc32 ll.to_bytes

/-- `header::HeaderLL::set_checksum`. -/
def HeaderLL.set_checksum (ll : HeaderLL) (c : Nat) : HeaderLL :=
  { ll with checksum := u32_to_bytes c }

/-- `header::HeaderLL::serialize`: pad the 257 bytes to a 512-byte block. -/
def HeaderLL.serialize (ll : HeaderLL) : List Nat :=
  ll.to_bytes ++ List.replicate (512 - ll.to_bytes.length) 0

/-- `header::HeaderLL::from_bytes`. -/
def HeaderLL.from_bytes (bs : List Nat) : Except String HeaderLL :=
  if bs.length ≠ 512 then .error "Invalid byte slice length"
  else
    .ok
      { file_name := Bag.slice bs 0 100
        file_mode := Bag.slice bs 100 8
        user_id := Bag.slice bs 108 8
        group_id := Bag.slice bs 116 8
        file_size := Bag.slice bs 124 12
        last_modified := Bag.slice bs 136 12
        checksum := Bag.slice bs 148 8
        type_flag := bs.getD 156 0
        link_name := Bag.slice bs 157 100 }

/-- Errors of the TAR decoding path. -/
inductive TarError
  | invalidBlockLength (got : Nat)
  | checksumMismatch (file : List Nat) (stored calculated : Nat)
  | invalidTypeFlag (b : Nat)
deriving DecidableEq

/-- `header::Header::serialize`. -/
def Header.serialize (h : Header) : List Nat :=
  let ll := HeaderLL.new h
  let c := ll.calculate_checksum
  (ll.set_checksum c).serialize

/-- `header::Header::deserialize`: split the 512-byte block, verify the
CRC (recomputed over the 257 serialized bytes with the checksum field
zeroed), then decode the fields, including the type flag. -/
def Header.deserialize (bs : List Nat) : Except TarError Header :=
  match HeaderLL.from_bytes bs with
  | .error _ => .error (.invalidBlockLength bs.length)
  | .ok ll0 =>
    let stored_checksum := bytes_to_u32 ll0.checksum
    let ll := ll0.set_checksum 0
    let calc_checksum := ll.calculate_checksum
    if calc_checksum ≠ stored_checksum then
      .error (.checksumMismatch (bytes_to_path ll.file_name) stored_checksum
        calc_checksum)
    else
      match TypeFlag.from_byte ll.type_flag with
      | .error _ => .error (.invalidTypeFlag ll.type_flag)
      | .ok tf =>
        .ok
          { file_name := bytes_to_path ll.file_name
            file_mode := bytes_to_u32 ll.file_mode
            user_id := bytes_to_u32 ll.user_id
            group_id := bytes_to_u32 ll.group_id
            file_size := bytes_to_u64 ll.file_size
            last_modified := bytes_to_i64 ll.last_modified
            type_flag := tf }

/-- `tar.rs`: `const EOF_MARKER: [u8; 1024] = [0; 1024]`, written by
`write_epilogue`. -/
def EOF_MARKER : List Nat := List.replicate 1024 0

/-- `tar.rs`: `is_eoa` compares the header buffer against `[0u8; 512]`. -/
def is_eoa (b : List Nat) : Bool := b == List.replicate 512 0

/-- `tar.rs`: `header_block_size`. -/
def header_block_size : Nat := 512

/-- The body of the `pack_file` payload loop in `tar.rs`: read up to 8 KiB
into the persistent buffer (the tail keeps stale bytes from earlier
iterations), stop at a zero-length read, and otherwise write
`buffer.into_iter().take_while(|c| *c != 0u8)` — the buffer contents up to
the first NUL byte. -/
def pack_file_loop (remaining buffer out : List Nat) : List Nat :=
  let k := min remaining.length 8192
  if k = 0 then out
  else
    let buffer' := remaining.take k ++ buffer.drop k
    pack_file_loop (remaining.drop k) buffer'
      (out ++ buffer'.takeWhile (fun c => !(c == 0)))
termination_by remaining.length
decreasing_by
  simp only [List.length_drop]
  omega

/-- The payload bytes `tar.rs::pack_file` writes after the 512-byte header
block for a source file with the given contents. -/
def pack_file_payload (contents : List Nat) : List Nat :=
  pack_file_loop contents (List.replicate 8192 0) []

/-- The byte string over which `Header::deserialize` recomputes the CRC:
the decoded 257 serialized bytes of the block with the 8-byte checksum
field zeroed; the padding bytes 257..512 are not covered. -/
def recomputedRegion (bs : List Nat) : List Nat :=
  Bag.slice bs 0 100 ++ Bag.slice bs 100 8 ++ Bag.slice bs 108 8 ++
    Bag.slice bs 116 8 ++ Bag.slice bs 124 12 ++ Bag.slice bs 136 12 ++
    [0, 0, 0, 0, 0, 0, 0, 0] ++ [bs.getD 156 0] ++ Bag.slice bs 157 100

end Tar

/-! ## Unpack driver (`src/archive/unpack.rs`) -/

namespace Unpack

/-- The entry-type tag of the decoded header, shared by both backends
(BAG `TypeFlag` / TAR `TypeFlag`), as seen by the driver. -/
inductive TypeFlag
  | Regular
  | HardLink
  | SymLink
deriving DecidableEq

/-- The decoded entry header as the generic unpack driver sees it through
the `AsHeader` interface (`get_file_name`, `get_file_size`), together with
the remaining decoded metadata fields. The archive path is modelled as its
non-empty list of components. -/
structure UHeader where
  file_name : List String
  file_size : Nat
  file_mode : Nat
  user_id : Nat
  group_id : Nat
  created_at : Int
  last_modified : Int
  type_flag : TypeFlag
  link_name : Option (List String)
deriving DecidableEq

/-- The filesystem operations the unpack driver can request of the host,
the vocabulary in which `process_file` is observed. -/
inductive FsAction
  | createDirAll (path : List String)
  | openTruncate (path : List String)
  | writeBytes (path : List String) (data : List Nat)
  | createSymlink (path : List String) (target : List String)
  | setMode (path : List String) (mode : Nat)
  | setOwner (path : List String) (uid gid : Nat)
  | setTimes (path : List String) (atime mtime : Int)
deriving DecidableEq

def FsAction.isCreateSymlink : FsAction → Bool
  | .createSymlink _ _ => true
  | _ => false

def FsAction.isOpenTruncate : FsAction → Bool
  | .openTruncate _ => true
  | _ => false

/-- Does the action restore entry metadata (mode, ownership or times)? -/
def FsAction.isMetadataRestore : FsAction → Bool
  | .setMode _ _ => true
  | .setOwner _ _ _ => true
  | .setTimes _ _ _ => true
  | _ => false

/-- `unpack.rs::parse_path`: split a path into its file name and the
parent-directory prefix (`ancestors()[1]`); fails when `file_name()`
returns `None` (empty path). -/
def parse_path (p : List String) : Option (String × List String) :=
  match p.getLast? with
  | none => none
  | some filename => some (filename, p.dropLast)

/-- `read_exact` of `n` bytes into a fresh buffer, performed in 8 KiB
chunks: the loop that `process_file` runs for entries of `file_size ≥
8192` (a final chunk smaller than 8 KiB is read with a buffer sized to the
remainder). Returns the bytes read and the rest of the stream, or `none`
on a short read. -/
def readExactChunks (stream : List Nat) (remaining : Nat) :
    Option (List Nat × List Nat) :=
  if remaining = 0 then some ([], stream)
  else if remaining < 8192 then
    if stream.length < remaining then none
    else some (stream.take remaining, stream.drop remaining)
  else
    if stream.length < 8192 then none
    else
      match readExactChunks (stream.drop 8192) (remaining - 8192) with
      | none => none
      | some (d, rest) => some (stream.take 8192 ++ d, rest)
termination_by remaining
decreasing_by omega

inductive UnpackError
  | pathError
  | truncated
deriving DecidableEq

/-- `unpack.rs::process_file`: decompose the archive path, create the
parent directories when there are any, open the destination with
create+write+truncate, and stream exactly `file_size` bytes from the
reader into it (`read_exact`, in one go for entries under 8 KiB and in
chunks otherwise). Returns the filesystem actions performed and the
remaining reader stream. The entry's type flag and link name are never
consulted. -/
def process_file (h : UHeader) (output_path : List String)
    (stream : List Nat) : Except UnpackError (List FsAction × List Nat) :=
  match parse_path h.file_name with
  | none => .error .pathError
  | some (filename, parent_dirs) =>
    let final_path :=
      if parent_dirs.isEmpty then output_path else output_path ++ parent_dirs
    let dirActions : List FsAction :=
      if parent_dirs.isEmpty then [] else [.createDirAll final_path]
    let filepath := final_path ++ [filename]
    let payload? :=
      if h.file_size < 8192 then
        if stream.length < h.file_size then none
        else some (stream.take h.file_size, stream.drop h.file_size)
      else readExactChunks stream h.file_size
    match payload? with
    | none => .error .truncated
    | some (data, rest) =>
      .ok (dirActions ++ [.openTruncate filepath, .writeBytes filepath data],
        rest)

end Unpack

/-! ## Buffered file reader (`src/archive/file.rs`) -/

namespace ArchiveFile

/-- The observable outcome of `read_file_chunked`: the chunk sequence
passed to the callback, an `Err` return, or a panic (a failed
`assert_eq!`). -/
inductive ReadOutcome
  | ok (chunks : List (List Nat))
  | ioError (msg : String)
  | panicked
deriving DecidableEq

/-- Is the outcome an error return (as opposed to success or a panic)? -/
def ReadOutcome.isError : ReadOutcome → Bool
  | .ioError _ => true
  | _ => false

/-- The `file_size ≥ 8192` loop of `read_file_chunked`: plain `read` calls
of up to 8 KiB while fewer than `file_size` total bytes have been read;
a zero-length read runs `assert_eq!(total_bytes_read, file_size)`, which
panics when the file was shorter than `file_size`. -/
def readLoop (remaining : List Nat) (total file_size : Nat)
    (acc : List (List Nat)) : ReadOutcome :=
  if total < file_size then
    let k := min remaining.length 8192
    if k = 0 then
      if total = file_size then .ok acc else .panicked
    else readLoop (remaining.drop k) (total + k) file_size
      (acc ++ [remaining.take k])
  else .ok acc
termination_by remaining.length
decreasing_by
  simp only [List.length_drop]
  omega

/-- `file.rs::read_file_chunked` over a file with the given contents:
for `file_size < 8192` a single `read_exact` of exactly `file_size` bytes
(error on a short file), otherwise the plain-`read` loop. -/
def read_file_chunked (contents : List Nat) (file_size : Nat) : ReadOutcome :=
  if file_size < 8192 then
    if contents.length < file_size then .ioError "Reading exact file size"
    else .ok [contents.take file_size]
  else readLoop contents 0 file_size []

end ArchiveFile

/-- The byte length of the encoded link name, as `FileHeaderLL::new`
computes it (`unwrap_or_default` gives 0 when there is no link). -/
def link_name_length (h : Bag.FileHeader) : Nat :=
  match h.link_name with
  | some ln => (Bag.path_to_bytes ln).length
  | none => 0

/-! ## Concrete example inputs used by witnesses and counterexamples -/

/-- A concrete BAG entry header for the file `abc` (6 bytes, mode 0644). -/
def bagExampleHeader : Bag.FileHeader :=
  { file_name := [97, 98, 99], file_size := 6, file_mode := 420, user_id := 1000,
    group_id := 1000, created_at := 1633072800, last_modified := 1633072800,
    type_flag := .Regular, link_name := none }

/-- A concrete BAG symlink entry header, `lnk` pointing to `abc`. -/
def bagSymlinkHeader : Bag.FileHeader :=
  { file_name := [108, 110, 107], file_size := 0, file_mode := 511, user_id := 1000,
    group_id := 1000, created_at := 1700000000, last_modified := 1700000000,
    type_flag := .SymLink, link_name := some [97, 98, 99] }

/-- A concrete TAR entry header for the file `x` (1 byte). -/
def tarExampleHeader : Tar.Header :=
  { file_name := [120], file_mode := 420, user_id := 1000, group_id := 1000,
    file_size := 1, last_modified := 1633072800, type_flag := .Regular }

/-- A concrete TAR entry header whose archive path contains an interior NUL
byte (`a\x00`, two bytes, valid UTF-8). -/
def tarNulNameHeader : Tar.Header :=
  { file_name := [97, 0], file_mode := 0, user_id := 0, group_id := 0,
    file_size := 0, last_modified := 0, type_flag := .Regular }

/-- A concrete TAR entry header whose archive path is 101 bytes of `a`. -/
def tarLongNameHeader : Tar.Header :=
  { file_name := List.replicate 101 97, file_mode := 0, user_id := 0,
    group_id := 0, file_size := 0, last_modified := 0, type_flag := .Regular }

/-- A concrete decoded symlink entry as the unpack driver sees it
(archive path `link`, stored target `hello.txt`, size 0). -/
def unpackSymlinkEntry : Unpack.UHeader :=
  { file_name := ["link"], file_size := 0, file_mode := 511, user_id := 1000,
    group_id := 1000, created_at := 1700000000, last_modified := 1700000000,
    type_flag := .SymLink, link_name := some ["hello.txt"] }

/-- A concrete decoded regular-file entry as the unpack driver sees it
(archive path `d/a`, 2 payload bytes). -/
def unpackRegularEntry : Unpack.UHeader :=
  { file_name := ["d", "a"], file_size := 2, file_mode := 420, user_id := 1000,
    group_id := 1000, created_at := 1633072800, last_modified := 1633072800,
    type_flag := .Regular, link_name := none }

/-! ## Helper lemmas -/

theorem leDecode_leBytes4 (v : Nat) (hv : v < 4294967296) :
    leDecode (leBytes4 v) = v := by
  simp [leDecode, leBytes4]
  omega

theorem leDecode_leBytes8 (v : Nat) (hv : v < 18446744073709551616) :
    leDecode (leBytes8 v) = v := by
  simp [leDecode, leBytes8]
  omega

theorem leDecodeI64_leBytesI64 (v : Int)
    (h1 : -9223372036854775808 ≤ v) (h2 : v < 9223372036854775808) :
    leDecodeI64 (leBytesI64 v) = v := by
  unfold leDecodeI64 leBytesI64
  have hnn : 0 ≤ v % 18446744073709551616 := Int.emod_nonneg v (by norm_num)
  have hlt : v % 18446744073709551616 < 18446744073709551616 :=
    Int.emod_lt_of_pos v (by norm_num)
  rw [leDecode_leBytes8 _ (by omega)]
  show (if (v % 18446744073709551616).toNat < 9223372036854775808
      then ((v % 18446744073709551616).toNat : Int)
      else ((v % 18446744073709551616).toNat : Int) - 18446744073709551616) = v
  split <;> omega

theorem mem_leBytes4_lt {b v : Nat} (h : b ∈ leBytes4 v) : b < 256 := by
  simp [leBytes4] at h
  omega

theorem mem_leBytes8_lt {b v : Nat} (h : b ∈ leBytes8 v) : b < 256 := by
  simp [leBytes8] at h
  omega

theorem mem_leBytesI64_lt {b : Nat} {v : Int} (h : b ∈ leBytesI64 v) : b < 256 :=
  mem_leBytes8_lt h

theorem crc32Fold_eq_foldl (l : List Nat) (c : Nat) :
    crc32Fold l c = l.foldl crc32Byte c := by
  induction l generalizing c with
  | nil => rfl
  | cons b rest ih =>
    have hstep : crc32Fold (b :: rest) c =
        (match crc32Byte c b with
         | 0 => crc32Fold rest 0
         | k + 1 => crc32Fold rest (k + 1)) := rfl
    rw [hstep]
    cases hcb : crc32Byte c b with
    | zero =>
      show crc32Fold rest 0 = List.foldl crc32Byte c (b :: rest)
      rw [ih 0, List.foldl_cons, hcb]
    | succ k =>
      show crc32Fold rest (k + 1) = List.foldl crc32Byte c (b :: rest)
      rw [ih (k + 1), List.foldl_cons, hcb]

theorem crc32Step_lt {c : Nat} (h : c < 4294967296) :
    crc32Step c < 4294967296 := by
  unfold crc32Step
  have h2 : c / 2 < 4294967296 := Nat.lt_of_le_of_lt (Nat.div_le_self _ _) h
  split
  · have := Nat.xor_lt_two_pow (n := 32) (by norm_num at h2 ⊢; omega)
      (x := c / 2) (y := 3988292384) (by norm_num)
    norm_num at this
    exact this
  · exact h2

theorem crc32Bits_lt {n c : Nat} (h : c < 4294967296) :
    crc32Bits n c < 4294967296 := by
  induction n generalizing c with
  | zero => exact h
  | succ k ih => exact ih (crc32Step_lt h)

theorem crc32Byte_lt {c b : Nat} (hc : c < 4294967296) (hb : b < 4294967296) :
    crc32Byte c b < 4294967296 := by
  unfold crc32Byte
  apply crc32Bits_lt
  have := Nat.xor_lt_two_pow (n := 32) (x := c) (y := b)
    (by norm_num; omega) (by norm_num; omega)
  norm_num at this
  exact this

theorem crc32_foldl_lt {l : List Nat} {c : Nat}
    (hl : ∀ b ∈ l, b < 4294967296) (hc : c < 4294967296) :
    l.foldl crc32Byte c < 4294967296 := by
  induction l generalizing c with
  | nil => exact hc
  | cons x xs ih =>
    exact ih (fun b hb => hl b (List.mem_cons_of_mem _ hb))
      (crc32Byte_lt hc (hl x (List.mem_cons_self _ _)))

theorem crc32_lt {l : List Nat} (hl : ∀ b ∈ l, b < 4294967296) :
    crc32 l < 4294967296 := by
  unfold crc32
  rw [crc32Fold_eq_foldl]
  have h1 : l.foldl crc32Byte 4294967295 < 4294967296 :=
    crc32_foldl_lt hl (by norm_num)
  have := Nat.xor_lt_two_pow (n := 32) (x := l.foldl crc32Byte 4294967295)
    (y := 4294967295) (by norm_num; omega) (by norm_num)
  norm_num at this
  exact this

theorem takeWhile_replicate_zero (k : Nat) :
    (List.replicate k 0).takeWhile (fun b => !(b == 0)) = [] := by
  cases k with
  | zero => rfl
  | succ n => simp [List.replicate, List.takeWhile_cons]

theorem takeWhile_append_replicate {p : List Nat} (hp : 0 ∉ p) (k : Nat) :
    (p ++ List.replicate k 0).takeWhile (fun b => !(b == 0)) = p := by
  induction p with
  | nil => simp only [List.nil_append]; exact takeWhile_replicate_zero k
  | cons a rest ih =>
    have ha : a ≠ 0 := fun h => hp (h ▸ List.mem_cons_self a rest)
    have hrest : 0 ∉ rest := fun h => hp (List.mem_cons_of_mem a h)
    simp [List.takeWhile_cons, ha, ih hrest]

theorem slice_append_exact (pre mid post : List Nat) :
    Bag.slice (pre ++ (mid ++ post)) pre.length mid.length = mid := by
  unfold Bag.slice
  rw [List.drop_append_eq_append_drop, List.drop_eq_nil_of_le (le_refl _),
    List.nil_append, Nat.sub_self, List.drop_zero,
    List.take_append_eq_append_take, Nat.sub_self, List.take_length,
    List.take_zero, List.append_nil]

theorem slice_append_exact' (pre mid post : List Nat) (i n : Nat)
    (hi : pre.length = i) (hn : mid.length = n) :
    Bag.slice (pre ++ (mid ++ post)) i n = mid := by
  subst hi
  subst hn
  exact slice_append_exact pre mid post

theorem getD_append_exact (pre post : List Nat) (x : Nat) (i : Nat)
    (hi : pre.length = i) :
    (pre ++ (x :: post)).getD i 0 = x := by
  subst hi
  rw [List.getD_append_right _ _ _ _ (le_refl _), Nat.sub_self]
  rfl

theorem slice_add (bs : List Nat) (i m n : Nat) :
    Bag.slice bs i m ++ Bag.slice bs (i + m) n = Bag.slice bs i (m + n) := by
  unfold Bag.slice
  conv_rhs => rw [List.take_add]
  rw [List.drop_drop]

theorem slice_one (bs : List Nat) (i : Nat) (hi : i < bs.length) :
    Bag.slice bs i 1 = [bs.getD i 0] := by
  unfold Bag.slice
  rw [List.drop_eq_getElem_cons hi, List.take_succ_cons, List.take_zero]
  simp [List.getD_eq_getElem, hi]

theorem from_bytes_of_length (bs : List Nat) (hb : bs.length = 64) :
    Bag.FileHeaderLL.from_bytes bs = .ok
      { file_name := [], file_name_size := Bag.slice bs 0 8,
        file_size := Bag.slice bs 8 8, file_mode := Bag.slice bs 16 4,
        user_id := Bag.slice bs 20 4, group_id := Bag.slice bs 24 4,
        created_at := Bag.slice bs 28 8, last_modified := Bag.slice bs 36 8,
        type_flag := bs.getD 44 0, link_name := [],
        link_name_size := Bag.slice bs 45 8, checksum := Bag.slice bs 53 4 } := by
  unfold Bag.FileHeaderLL.from_bytes
  rw [if_neg (by omega)]

theorem deserialize_spec (bs : List Nat) (hb : bs.length = 64) :
    Bag.FileHeader.deserialize bs =
      (if crc32 (Bag.recomputedRegion bs) ≠ Bag.bytes_to_u32 (Bag.slice bs 53 4) then
        .error (.checksumMismatch [] (Bag.bytes_to_u32 (Bag.slice bs 53 4))
          (crc32 (Bag.recomputedRegion bs)))
      else
        match Bag.TypeFlag.from_byte (bs.getD 44 0) with
        | .error _ => .error (.invalidTypeFlag (bs.getD 44 0))
        | .ok tf =>
          .ok ({ file_name := [],
                 file_size := Bag.bytes_to_u64 (Bag.slice bs 8 8),
                 file_mode := Bag.bytes_to_u32 (Bag.slice bs 16 4),
                 user_id := Bag.bytes_to_u32 (Bag.slice bs 20 4),
                 group_id := Bag.bytes_to_u32 (Bag.slice bs 24 4),
                 created_at := Bag.bytes_to_i64 (Bag.slice bs 28 8),
                 last_modified := Bag.bytes_to_i64 (Bag.slice bs 36 8),
                 type_flag := tf, link_name := none },
            Bag.bytes_to_u64 (Bag.slice bs 0 8),
            Bag.bytes_to_u64 (Bag.slice bs 45 8))) := by
  unfold Bag.FileHeader.deserialize
  rw [from_bytes_of_length bs hb]
  dsimp only
  have hz : Bag.u32_to_bytes 0 = [0, 0, 0, 0] := rfl
  have hp : Bag.bytes_to_path ([] : List Nat) = [] := rfl
  simp only [Bag.FileHeaderLL.set_checksum, Bag.FileHeaderLL.calculate_checksum,
    Bag.FileHeaderLL.to_bytes, hz, hp, Bag.recomputedRegion]

theorem u64_to_bytes_length (v : Nat) : (Bag.u64_to_bytes v).length = 8 := rfl
theorem u32_to_bytes_length (v : Nat) : (Bag.u32_to_bytes v).length = 4 := rfl
theorem i64_to_bytes_length (v : Int) : (Bag.i64_to_bytes v).length = 8 := rfl

theorem slice_prefix_exact (mid post : List Nat) (n : Nat) (hn : mid.length = n) :
    Bag.slice (mid ++ post) 0 n = mid := by
  have := slice_append_exact' [] mid post 0 n rfl hn
  simpa using this


theorem bag_to_bytes_mem_lt (h : Bag.FileHeader) :
    ∀ b ∈ (Bag.FileHeaderLL.new h).to_bytes, b < 4294967296 := by
  intro b hb
  simp only [Bag.FileHeaderLL.to_bytes, Bag.FileHeaderLL.new, List.mem_append,
    List.mem_cons, List.not_mem_nil, or_false, List.mem_singleton] at hb
  rcases hb with ((((((((hb | hb) | hb) | hb) | hb) | hb) | hb) | hb) | hb) | hb
  · exact lt_trans (mem_leBytes8_lt hb) (by norm_num)
  · exact lt_trans (mem_leBytes8_lt hb) (by norm_num)
  · exact lt_trans (mem_leBytes4_lt hb) (by norm_num)
  · exact lt_trans (mem_leBytes4_lt hb) (by norm_num)
  · exact lt_trans (mem_leBytes4_lt hb) (by norm_num)
  · exact lt_trans (mem_leBytesI64_lt hb) (by norm_num)
  · exact lt_trans (mem_leBytesI64_lt hb) (by norm_num)
  · subst hb; cases h.type_flag <;> norm_num [Bag.TypeFlag.toByte]
  · exact lt_trans (mem_leBytes8_lt hb) (by norm_num)
  · omega

theorem bag_serialize_block (h : Bag.FileHeader) :
    (Bag.FileHeader.serialize h).header =
      Bag.u64_to_bytes (Bag.path_to_bytes h.file_name).length ++
        (Bag.u64_to_bytes h.file_size ++
        (Bag.u32_to_bytes h.file_mode ++
        (Bag.u32_to_bytes h.user_id ++
        (Bag.u32_to_bytes h.group_id ++
        (Bag.i64_to_bytes h.created_at ++
        (Bag.i64_to_bytes h.last_modified ++
        (h.type_flag.toByte ::
        (Bag.u64_to_bytes (link_name_length h) ++
        (Bag.u32_to_bytes (Bag.FileHeaderLL.new h).calculate_checksum ++
          List.replicate 7 0))))))))) := by
  have h57 : ((Bag.FileHeaderLL.new h).set_checksum
      (Bag.FileHeaderLL.new h).calculate_checksum).to_bytes.length = 57 := by
    simp [Bag.FileHeaderLL.to_bytes, Bag.FileHeaderLL.set_checksum,
      Bag.FileHeaderLL.new, u64_to_bytes_length, u32_to_bytes_length,
      i64_to_bytes_length]
  have hstep : (Bag.FileHeader.serialize h).header =
      ((Bag.FileHeaderLL.new h).set_checksum
        (Bag.FileHeaderLL.new h).calculate_checksum).to_bytes ++
        List.replicate 7 0 := by
    show ((Bag.FileHeaderLL.new h).set_checksum
        (Bag.FileHeaderLL.new h).calculate_checksum).serialize.header = _
    unfold Bag.FileHeaderLL.serialize
    rw [h57]
  rw [hstep]
  cases hln : h.link_name with
  | none =>
    simp [Bag.FileHeaderLL.to_bytes, Bag.FileHeaderLL.set_checksum,
      Bag.FileHeaderLL.new, link_name_length, hln, List.append_assoc]
  | some ln =>
    simp [Bag.FileHeaderLL.to_bytes, Bag.FileHeaderLL.set_checksum,
      Bag.FileHeaderLL.new, link_name_length, hln, List.append_assoc]

theorem from_byte_toByte (tf : Bag.TypeFlag) :
    Bag.TypeFlag.from_byte tf.toByte = .ok tf := by
  cases tf <;> rfl

theorem bag_roundtrip (h : Bag.FileHeader)
    (hsize : h.file_size < 18446744073709551616)
    (hmode : h.file_mode < 4294967296)
    (huid : h.user_id < 4294967296)
    (hgid : h.group_id < 4294967296)
    (hca1 : -9223372036854775808 ≤ h.created_at)
    (hca2 : h.created_at < 9223372036854775808)
    (hlm1 : -9223372036854775808 ≤ h.last_modified)
    (hlm2 : h.last_modified < 9223372036854775808)
    (hnm : (Bag.path_to_bytes h.file_name).length < 18446744073709551616)
    (hlk : link_name_length h < 18446744073709551616) :
    Bag.FileHeader.deserialize (Bag.FileHeader.serialize h).header =
      .ok ({ h with file_name := [], link_name := none },
        (Bag.path_to_bytes h.file_name).length, link_name_length h) := by
  have hB := bag_serialize_block h
  set B := (Bag.FileHeader.serialize h).header with hBdef
  have hlen : B.length = 64 := by
    rw [hB]
    simp [u64_to_bytes_length, u32_to_bytes_length, i64_to_bytes_length]
  rw [deserialize_spec B hlen]
  have s0 : Bag.slice B 0 8 = Bag.u64_to_bytes (Bag.path_to_bytes h.file_name).length := by
    rw [hB]
    exact slice_prefix_exact _ _ 8 (u64_to_bytes_length _)
  have s8 : Bag.slice B 8 8 = Bag.u64_to_bytes h.file_size := by
    have e : B = (Bag.u64_to_bytes (Bag.path_to_bytes h.file_name).length) ++ (Bag.u64_to_bytes h.file_size ++ (Bag.u32_to_bytes h.file_mode ++ (Bag.u32_to_bytes h.user_id ++ (Bag.u32_to_bytes h.group_id ++ (Bag.i64_to_bytes h.created_at ++ (Bag.i64_to_bytes h.last_modified ++ (h.type_flag.toByte :: (Bag.u64_to_bytes (link_name_length h) ++ (Bag.u32_to_bytes (Bag.FileHeaderLL.new h).calculate_checksum ++ List.replicate 7 0))))))))) := by
      simp [hB, List.append_assoc]
    rw [e]
    exact slice_append_exact' _ _ _ 8 8 (by
      simp [u64_to_bytes_length, u32_to_bytes_length, i64_to_bytes_length])
      (u64_to_bytes_length _)
  have s16 : Bag.slice B 16 4 = Bag.u32_to_bytes h.file_mode := by
    have e : B = ((Bag.u64_to_bytes (Bag.path_to_bytes h.file_name).length ++ Bag.u64_to_bytes h.file_size)) ++ (Bag.u32_to_bytes h.file_mode ++ (Bag.u32_to_bytes h.user_id ++ (Bag.u32_to_bytes h.group_id ++ (Bag.i64_to_bytes h.created_at ++ (Bag.i64_to_bytes h.last_modified ++ (h.type_flag.toByte :: (Bag.u64_to_bytes (link_name_length h) ++ (Bag.u32_to_bytes (Bag.FileHeaderLL.new h).calculate_checksum ++ List.replicate 7 0)))))))) := by
      simp [hB, List.append_assoc]
    rw [e]
    exact slice_append_exact' _ _ _ 16 4 (by
      simp [u64_to_bytes_length, u32_to_bytes_length, i64_to_bytes_length])
      (u32_to_bytes_length _)
  have s20 : Bag.slice B 20 4 = Bag.u32_to_bytes h.user_id := by
    have e : B = ((Bag.u64_to_bytes (Bag.path_to_bytes h.file_name).length ++ (Bag.u64_to_bytes h.file_size ++ Bag.u32_to_bytes h.file_mode))) ++ (Bag.u32_to_bytes h.user_id ++ (Bag.u32_to_bytes h.group_id ++ (Bag.i64_to_bytes h.created_at ++ (Bag.i64_to_bytes h.last_modified ++ (h.type_flag.toByte :: (Bag.u64_to_bytes (link_name_length h) ++ (Bag.u32_to_bytes (Bag.FileHeaderLL.new h).calculate_checksum ++ List.replicate 7 0))))))) := by
      simp [hB, List.append_assoc]
    rw [e]
    exact slice_append_exact' _ _ _ 20 4 (by
      simp [u64_to_bytes_length, u32_to_bytes_length, i64_to_bytes_length])
      (u32_to_bytes_length _)
  have s24 : Bag.slice B 24 4 = Bag.u32_to_bytes h.group_id := by
    have e : B = ((Bag.u64_to_bytes (Bag.path_to_bytes h.file_name).length ++ (Bag.u64_to_bytes h.file_size ++ (Bag.u32_to_bytes h.file_mode ++ Bag.u32_to_bytes h.user_id)))) ++ (Bag.u32_to_bytes h.group_id ++ (Bag.i64_to_bytes h.created_at ++ (Bag.i64_to_bytes h.last_modified ++ (h.type_flag.toByte :: (Bag.u64_to_bytes (link_name_length h) ++ (Bag.u32_to_bytes (Bag.FileHeaderLL.new h).calculate_checksum ++ List.replicate 7 0)))))) := by
      simp [hB, List.append_assoc]
    rw [e]
    exact slice_append_exact' _ _ _ 24 4 (by
      simp [u64_to_bytes_length, u32_to_bytes_length, i64_to_bytes_length])
      (u32_to_bytes_length _)
  have s28 : Bag.slice B 28 8 = Bag.i64_to_bytes h.created_at := by
    have e : B = ((Bag.u64_to_bytes (Bag.path_to_bytes h.file_name).length ++ (Bag.u64_to_bytes h.file_size ++ (Bag.u32_to_bytes h.file_mode ++ (Bag.u32_to_bytes h.user_id ++ Bag.u32_to_bytes h.group_id))))) ++ (Bag.i64_to_bytes h.created_at ++ (Bag.i64_to_bytes h.last_modified ++ (h.type_flag.toByte :: (Bag.u64_to_bytes (link_name_length h) ++ (Bag.u32_to_bytes (Bag.FileHeaderLL.new h).calculate_checksum ++ List.replicate 7 0))))) := by
      simp [hB, List.append_assoc]
    rw [e]
    exact slice_append_exact' _ _ _ 28 8 (by
      simp [u64_to_bytes_length, u32_to_bytes_length, i64_to_bytes_length])
      (i64_to_bytes_length _)
  have s36 : Bag.slice B 36 8 = Bag.i64_to_bytes h.last_modified := by
    have e : B = ((Bag.u64_to_bytes (Bag.path_to_bytes h.file_name).length ++ (Bag.u64_to_bytes h.file_size ++ (Bag.u32_to_bytes h.file_mode ++ (Bag.u32_to_bytes h.user_id ++ (Bag.u32_to_bytes h.group_id ++ Bag.i64_to_bytes h.created_at)))))) ++ (Bag.i64_to_bytes h.last_modified ++ (h.type_flag.toByte :: (Bag.u64_to_bytes (link_name_length h) ++ (Bag.u32_to_bytes (Bag.FileHeaderLL.new h).calculate_checksum ++ List.replicate 7 0)))) := by
      simp [hB, List.append_assoc]
    rw [e]
    exact slice_append_exact' _ _ _ 36 8 (by
      simp [u64_to_bytes_length, u32_to_bytes_length, i64_to_bytes_length])
      (i64_to_bytes_length _)
  have g44 : B.getD 44 0 = h.type_flag.toByte := by
    have e : B = ((Bag.u64_to_bytes (Bag.path_to_bytes h.file_name).length ++ (Bag.u64_to_bytes h.file_size ++ (Bag.u32_to_bytes h.file_mode ++ (Bag.u32_to_bytes h.user_id ++ (Bag.u32_to_bytes h.group_id ++ (Bag.i64_to_bytes h.created_at ++ Bag.i64_to_bytes h.last_modified))))))) ++ (h.type_flag.toByte :: (Bag.u64_to_bytes (link_name_length h) ++ (Bag.u32_to_bytes (Bag.FileHeaderLL.new h).calculate_checksum ++ List.replicate 7 0))) := by
      simp [hB, List.append_assoc]
    rw [e]
    exact getD_append_exact _ _ _ 44 (by
      simp [u64_to_bytes_length, u32_to_bytes_length, i64_to_bytes_length])
  have s45 : Bag.slice B 45 8 = Bag.u64_to_bytes (link_name_length h) := by
    have e : B = ((Bag.u64_to_bytes (Bag.path_to_bytes h.file_name).length ++ (Bag.u64_to_bytes h.file_size ++ (Bag.u32_to_bytes h.file_mode ++ (Bag.u32_to_bytes h.user_id ++ (Bag.u32_to_bytes h.group_id ++ (Bag.i64_to_bytes h.created_at ++ (Bag.i64_to_bytes h.last_modified ++ [h.type_flag.toByte])))))))) ++ (Bag.u64_to_bytes (link_name_length h) ++ (Bag.u32_to_bytes (Bag.FileHeaderLL.new h).calculate_checksum ++ List.replicate 7 0)) := by
      simp [hB, List.append_assoc]
    rw [e]
    exact slice_append_exact' _ _ _ 45 8 (by
      simp [u64_to_bytes_length, u32_to_bytes_length, i64_to_bytes_length])
      (u64_to_bytes_length _)
  have s53 : Bag.slice B 53 4 = Bag.u32_to_bytes (Bag.FileHeaderLL.new h).calculate_checksum := by
    have e : B = ((Bag.u64_to_bytes (Bag.path_to_bytes h.file_name).length ++ (Bag.u64_to_bytes h.file_size ++ (Bag.u32_to_bytes h.file_mode ++ (Bag.u32_to_bytes h.user_id ++ (Bag.u32_to_bytes h.group_id ++ (Bag.i64_to_bytes h.created_at ++ (Bag.i64_to_bytes h.last_modified ++ (h.type_flag.toByte :: Bag.u64_to_bytes (link_name_length h)))))))))) ++ (Bag.u32_to_bytes (Bag.FileHeaderLL.new h).calculate_checksum ++ List.replicate 7 0) := by
      simp [hB, List.append_assoc]
    rw [e]
    exact slice_append_exact' _ _ _ 53 4 (by
      simp [u64_to_bytes_length, u32_to_bytes_length, i64_to_bytes_length])
      (u32_to_bytes_length _)
  have hreg : Bag.recomputedRegion B = (Bag.FileHeaderLL.new h).to_bytes := by
    unfold Bag.recomputedRegion
    rw [s0, s8, s16, s20, s24, s28, s36, g44, s45]
    cases hln : h.link_name with
    | none =>
      simp [Bag.FileHeaderLL.to_bytes, Bag.FileHeaderLL.new, link_name_length,
        hln, List.append_assoc]
    | some ln =>
      simp [Bag.FileHeaderLL.to_bytes, Bag.FileHeaderLL.new, link_name_length,
        hln, List.append_assoc]
  have hc32 : (Bag.FileHeaderLL.new h).calculate_checksum < 4294967296 :=
    crc32_lt (bag_to_bytes_mem_lt h)
  have hcrc : crc32 (Bag.recomputedRegion B) =
      (Bag.FileHeaderLL.new h).calculate_checksum := by
    rw [hreg]; rfl
  have hstored : Bag.bytes_to_u32 (Bag.slice B 53 4) =
      (Bag.FileHeaderLL.new h).calculate_checksum := by
    rw [s53]
    exact leDecode_leBytes4 _ hc32
  have e1 : Bag.bytes_to_u64 (Bag.slice B 8 8) = h.file_size := by
    rw [s8]; exact leDecode_leBytes8 _ hsize
  have e2 : Bag.bytes_to_u32 (Bag.slice B 16 4) = h.file_mode := by
    rw [s16]; exact leDecode_leBytes4 _ hmode
  have e3 : Bag.bytes_to_u32 (Bag.slice B 20 4) = h.user_id := by
    rw [s20]; exact leDecode_leBytes4 _ huid
  have e4 : Bag.bytes_to_u32 (Bag.slice B 24 4) = h.group_id := by
    rw [s24]; exact leDecode_leBytes4 _ hgid
  have e5 : Bag.bytes_to_i64 (Bag.slice B 28 8) = h.created_at := by
    rw [s28]; exact leDecodeI64_leBytesI64 _ hca1 hca2
  have e6 : Bag.bytes_to_i64 (Bag.slice B 36 8) = h.last_modified := by
    rw [s36]; exact leDecodeI64_leBytesI64 _ hlm1 hlm2
  have e7 : Bag.bytes_to_u64 (Bag.slice B 0 8) =
      (Bag.path_to_bytes h.file_name).length := by
    rw [s0]; exact leDecode_leBytes8 _ hnm
  have e8 : Bag.bytes_to_u64 (Bag.slice B 45 8) = link_name_length h := by
    rw [s45]; exact leDecode_leBytes8 _ hlk
  rw [hcrc, hstored, if_neg (by simp), g44, from_byte_toByte, e1, e2, e3, e4,
    e5, e6, e7, e8]

theorem tar_u32_to_bytes_length (v : Nat) : (Tar.u32_to_bytes v).length = 8 := rfl
theorem tar_u64_to_bytes_length (v : Nat) : (Tar.u64_to_bytes v).length = 12 := rfl
theorem tar_i64_to_bytes_length (v : Int) : (Tar.i64_to_bytes v).length = 12 := rfl

theorem tar_path_to_bytes_length (p : List Nat) :
    (Tar.path_to_bytes p).length = 100 := by
  unfold Tar.path_to_bytes
  split
  · simp only [List.length_append, List.length_take, List.length_replicate]
    omega
  · simp

theorem tar_u32_roundtrip (v : Nat) (hv : v < 4294967296) :
    Tar.bytes_to_u32 (Tar.u32_to_bytes v) = v := by
  unfold Tar.bytes_to_u32 Tar.u32_to_bytes
  rw [show (4 : Nat) = (leBytes4 v).length from rfl, List.take_left]
  exact leDecode_leBytes4 v hv

theorem tar_u64_roundtrip (v : Nat) (hv : v < 18446744073709551616) :
    Tar.bytes_to_u64 (Tar.u64_to_bytes v) = v := by
  unfold Tar.bytes_to_u64 Tar.u64_to_bytes
  rw [show (8 : Nat) = (leBytes8 v).length from rfl, List.take_left]
  exact leDecode_leBytes8 v hv

theorem tar_i64_roundtrip (v : Int) (h1 : -9223372036854775808 ≤ v)
    (h2 : v < 9223372036854775808) :
    Tar.bytes_to_i64 (Tar.i64_to_bytes v) = v := by
  unfold Tar.bytes_to_i64 Tar.i64_to_bytes
  rw [show (8 : Nat) = (leBytesI64 v).length from rfl, List.take_left]
  exact leDecodeI64_leBytesI64 v h1 h2

theorem tar_name_roundtrip (p : List Nat) (hutf : utf8Valid p = true)
    (hlen : p.length ≤ 100) (hnz : 0 ∉ p) :
    Tar.bytes_to_path (Tar.path_to_bytes p) = p := by
  unfold Tar.path_to_bytes Tar.bytes_to_path
  rw [if_pos hutf, List.take_of_length_le hlen, takeWhile_append_replicate hnz,
    if_pos hutf]

theorem tar_from_byte_as_byte (tf : Tar.TypeFlag) :
    Tar.TypeFlag.from_byte tf.as_byte = .ok tf := by
  cases tf <;> rfl

theorem tar_from_bytes_of_length (bs : List Nat) (hb : bs.length = 512) :
    Tar.HeaderLL.from_bytes bs = .ok
      { file_name := Bag.slice bs 0 100, file_mode := Bag.slice bs 100 8,
        user_id := Bag.slice bs 108 8, group_id := Bag.slice bs 116 8,
        file_size := Bag.slice bs 124 12, last_modified := Bag.slice bs 136 12,
        checksum := Bag.slice bs 148 8, type_flag := bs.getD 156 0,
        link_name := Bag.slice bs 157 100 } := by
  unfold Tar.HeaderLL.from_bytes
  rw [if_neg (by omega)]

theorem tar_deserialize_spec (bs : List Nat) (hb : bs.length = 512) :
    Tar.Header.deserialize bs =
      (if crc32 (Tar.recomputedRegion bs) ≠
          Tar.bytes_to_u32 (Bag.slice bs 148 8) then
        .error (.checksumMismatch (Tar.bytes_to_path (Bag.slice bs 0 100))
          (Tar.bytes_to_u32 (Bag.slice bs 148 8))
          (crc32 (Tar.recomputedRegion bs)))
      else
        match Tar.TypeFlag.from_byte (bs.getD 156 0) with
        | .error _ => .error (.invalidTypeFlag (bs.getD 156 0))
        | .ok tf =>
          .ok { file_name := Tar.bytes_to_path (Bag.slice bs 0 100),
                file_mode := Tar.bytes_to_u32 (Bag.slice bs 100 8),
                user_id := Tar.bytes_to_u32 (Bag.slice bs 108 8),
                group_id := Tar.bytes_to_u32 (Bag.slice bs 116 8),
                file_size := Tar.bytes_to_u64 (Bag.slice bs 124 12),
                last_modified := Tar.bytes_to_i64 (Bag.slice bs 136 12),
                type_flag := tf }) := by
  unfold Tar.Header.deserialize
  rw [tar_from_bytes_of_length bs hb]
  dsimp only
  have hz : Tar.u32_to_bytes 0 = [0, 0, 0, 0, 0, 0, 0, 0] := rfl
  simp only [Tar.HeaderLL.set_checksum, Tar.HeaderLL.calculate_checksum,
    Tar.HeaderLL.to_bytes, hz, Tar.recomputedRegion]

theorem tar_to_bytes_mem_lt (h : Tar.Header)
    (hbytes : ∀ b ∈ h.file_name, b < 256) :
    ∀ b ∈ (Tar.HeaderLL.new h).to_bytes, b < 4294967296 := by
  have hname : ∀ b ∈ Tar.path_to_bytes h.file_name, b < 4294967296 := by
    intro b hb
    unfold Tar.path_to_bytes at hb
    split at hb
    · rcases List.mem_append.mp hb with hb | hb
      · exact lt_trans (hbytes b (List.mem_of_mem_take hb)) (by norm_num)
      · rw [List.eq_of_mem_replicate hb]; norm_num
    · rw [List.eq_of_mem_replicate hb]; norm_num
  intro b hb
  simp only [Tar.HeaderLL.to_bytes, Tar.HeaderLL.new, List.mem_append,
    List.mem_cons, List.not_mem_nil, or_false, List.mem_singleton] at hb
  rcases hb with (((((((hb | hb) | hb) | hb) | hb) | hb) | hb) | hb) | hb
  · exact hname b hb
  · unfold Tar.u32_to_bytes at hb
    rcases List.mem_append.mp hb with hb | hb
    · exact lt_trans (mem_leBytes4_lt hb) (by norm_num)
    · simp at hb; omega
  · unfold Tar.u32_to_bytes at hb
    rcases List.mem_append.mp hb with hb | hb
    · exact lt_trans (mem_leBytes4_lt hb) (by norm_num)
    · simp at hb; omega
  · unfold Tar.u32_to_bytes at hb
    rcases List.mem_append.mp hb with hb | hb
    · exact lt_trans (mem_leBytes4_lt hb) (by norm_num)
    · simp at hb; omega
  · unfold Tar.u64_to_bytes at hb
    rcases List.mem_append.mp hb with hb | hb
    · exact lt_trans (mem_leBytes8_lt hb) (by norm_num)
    · simp at hb; omega
  · unfold Tar.i64_to_bytes at hb
    rcases List.mem_append.mp hb with hb | hb
    · exact lt_trans (mem_leBytesI64_lt hb) (by norm_num)
    · simp at hb; omega
  · simp at hb; omega
  · subst hb; cases h.type_flag <;> norm_num [Tar.TypeFlag.as_byte]
  · rw [List.eq_of_mem_replicate hb]; norm_num

theorem tar_serialize_block (h : Tar.Header) :
    Tar.Header.serialize h =
      Tar.path_to_bytes h.file_name ++
        (Tar.u32_to_bytes h.file_mode ++
        (Tar.u32_to_bytes h.user_id ++
        (Tar.u32_to_bytes h.group_id ++
        (Tar.u64_to_bytes h.file_size ++
        (Tar.i64_to_bytes h.last_modified ++
        (Tar.u32_to_bytes (Tar.HeaderLL.new h).calculate_checksum ++
        (h.type_flag.as_byte ::
        (List.replicate 100 0 ++ List.replicate 255 0)))))))) := by
  have h257 : ((Tar.HeaderLL.new h).set_checksum
      (Tar.HeaderLL.new h).calculate_checksum).to_bytes.length = 257 := by
    simp [Tar.HeaderLL.to_bytes, Tar.HeaderLL.set_checksum, Tar.HeaderLL.new,
      tar_u32_to_bytes_length, tar_u64_to_bytes_length, tar_i64_to_bytes_length,
      tar_path_to_bytes_length]
  have hstep : Tar.Header.serialize h =
      ((Tar.HeaderLL.new h).set_checksum
        (Tar.HeaderLL.new h).calculate_checksum).to_bytes ++
        List.replicate 255 0 := by
    show ((Tar.HeaderLL.new h).set_checksum
        (Tar.HeaderLL.new h).calculate_checksum).serialize = _
    unfold Tar.HeaderLL.serialize
    rw [h257]
  rw [hstep]
  simp [Tar.HeaderLL.to_bytes, Tar.HeaderLL.set_checksum, Tar.HeaderLL.new,
    List.append_assoc]

theorem tar_roundtrip (h : Tar.Header)
    (hmode : h.file_mode < 4294967296)
    (huid : h.user_id < 4294967296)
    (hgid : h.group_id < 4294967296)
    (hsize : h.file_size < 18446744073709551616)
    (hlm1 : -9223372036854775808 ≤ h.last_modified)
    (hlm2 : h.last_modified < 9223372036854775808)
    (hutf : utf8Valid h.file_name = true)
    (hnlen : h.file_name.length ≤ 100)
    (hnz : 0 ∉ h.file_name)
    (hbytes : ∀ b ∈ h.file_name, b < 256) :
    Tar.Header.deserialize (Tar.Header.serialize h) = .ok h := by
  have hB := tar_serialize_block h
  set B := Tar.Header.serialize h with hBdef
  have hlen : B.length = 512 := by
    rw [hB]
    simp [tar_u32_to_bytes_length, tar_u64_to_bytes_length,
      tar_i64_to_bytes_length, tar_path_to_bytes_length]
  rw [tar_deserialize_spec B hlen]
  have s0 : Bag.slice B 0 100 = Tar.path_to_bytes h.file_name := by
    rw [hB]
    exact slice_prefix_exact _ _ 100 (tar_path_to_bytes_length _)
  have s100 : Bag.slice B 100 8 = Tar.u32_to_bytes h.file_mode := by
    have e : B = (Tar.path_to_bytes h.file_name) ++ (Tar.u32_to_bytes h.file_mode ++ (Tar.u32_to_bytes h.user_id ++ (Tar.u32_to_bytes h.group_id ++ (Tar.u64_to_bytes h.file_size ++ (Tar.i64_to_bytes h.last_modified ++ (Tar.u32_to_bytes (Tar.HeaderLL.new h).calculate_checksum ++ (h.type_flag.as_byte :: (List.replicate 100 0 ++ List.replicate 255 0)))))))) := by
      simp [hB, List.append_assoc]
    rw [e]
    exact slice_append_exact' _ _ _ 100 8 (by
      simp [tar_u32_to_bytes_length, tar_u64_to_bytes_length,
        tar_i64_to_bytes_length, tar_path_to_bytes_length])
      (tar_u32_to_bytes_length _)
  have s108 : Bag.slice B 108 8 = Tar.u32_to_bytes h.user_id := by
    have e : B = ((Tar.path_to_bytes h.file_name ++ Tar.u32_to_bytes h.file_mode)) ++ (Tar.u32_to_bytes h.user_id ++ (Tar.u32_to_bytes h.group_id ++ (Tar.u64_to_bytes h.file_size ++ (Tar.i64_to_bytes h.last_modified ++ (Tar.u32_to_bytes (Tar.HeaderLL.new h).calculate_checksum ++ (h.type_flag.as_byte :: (List.replicate 100 0 ++ List.replicate 255 0))))))) := by
      simp [hB, List.append_assoc]
    rw [e]
    exact slice_append_exact' _ _ _ 108 8 (by
      simp [tar_u32_to_bytes_length, tar_u64_to_bytes_length,
        tar_i64_to_bytes_length, tar_path_to_bytes_length])
      (tar_u32_to_bytes_length _)
  have s116 : Bag.slice B 116 8 = Tar.u32_to_bytes h.group_id := by
    have e : B = ((Tar.path_to_bytes h.file_name ++ (Tar.u32_to_bytes h.file_mode ++ Tar.u32_to_bytes h.user_id))) ++ (Tar.u32_to_bytes h.group_id ++ (Tar.u64_to_bytes h.file_size ++ (Tar.i64_to_bytes h.last_modified ++ (Tar.u32_to_bytes (Tar.HeaderLL.new h).calculate_checksum ++ (h.type_flag.as_byte :: (List.replicate 100 0 ++ List.replicate 255 0)))))) := by
      simp [hB, List.append_assoc]
    rw [e]
    exact slice_append_exact' _ _ _ 116 8 (by
      simp [tar_u32_to_bytes_length, tar_u64_to_bytes_length,
        tar_i64_to_bytes_length, tar_path_to_bytes_length])
      (tar_u32_to_bytes_length _)
  have s124 : Bag.slice B 124 12 = Tar.u64_to_bytes h.file_size := by
    have e : B = ((Tar.path_to_bytes h.file_name ++ (Tar.u32_to_bytes h.file_mode ++ (Tar.u32_to_bytes h.user_id ++ Tar.u32_to_bytes h.group_id)))) ++ (Tar.u64_to_bytes h.file_size ++ (Tar.i64_to_bytes h.last_modified ++ (Tar.u32_to_bytes (Tar.HeaderLL.new h).calculate_checksum ++ (h.type_flag.as_byte :: (List.replicate 100 0 ++ List.replicate 255 0))))) := by
      simp [hB, List.append_assoc]
    rw [e]
    exact slice_append_exact' _ _ _ 124 12 (by
      simp [tar_u32_to_bytes_length, tar_u64_to_bytes_length,
        tar_i64_to_bytes_length, tar_path_to_bytes_length])
      (tar_u64_to_bytes_length _)
  have s136 : Bag.slice B 136 12 = Tar.i64_to_bytes h.last_modified := by
    have e : B = ((Tar.path_to_bytes h.file_name ++ (Tar.u32_to_bytes h.file_mode ++ (Tar.u32_to_bytes h.user_id ++ (Tar.u32_to_bytes h.group_id ++ Tar.u64_to_bytes h.file_size))))) ++ (Tar.i64_to_bytes h.last_modified ++ (Tar.u32_to_bytes (Tar.HeaderLL.new h).calculate_checksum ++ (h.type_flag.as_byte :: (List.replicate 100 0 ++ List.replicate 255 0)))) := by
      simp [hB, List.append_assoc]
    rw [e]
    exact slice_append_exact' _ _ _ 136 12 (by
      simp [tar_u32_to_bytes_length, tar_u64_to_bytes_length,
        tar_i64_to_bytes_length, tar_path_to_bytes_length])
      (tar_i64_to_bytes_length _)
  have s148 : Bag.slice B 148 8 = Tar.u32_to_bytes (Tar.HeaderLL.new h).calculate_checksum := by
    have e : B = ((Tar.path_to_bytes h.file_name ++ (Tar.u32_to_bytes h.file_mode ++ (Tar.u32_to_bytes h.user_id ++ (Tar.u32_to_bytes h.group_id ++ (Tar.u64_to_bytes h.file_size ++ Tar.i64_to_bytes h.last_modified)))))) ++ (Tar.u32_to_bytes (Tar.HeaderLL.new h).calculate_checksum ++ (h.type_flag.as_byte :: (List.replicate 100 0 ++ List.replicate 255 0))) := by
      simp [hB, List.append_assoc]
    rw [e]
    exact slice_append_exact' _ _ _ 148 8 (by
      simp [tar_u32_to_bytes_length, tar_u64_to_bytes_length,
        tar_i64_to_bytes_length, tar_path_to_bytes_length])
      (tar_u32_to_bytes_length _)
  have g156 : B.getD 156 0 = h.type_flag.as_byte := by
    have e : B = ((Tar.path_to_bytes h.file_name ++ (Tar.u32_to_bytes h.file_mode ++ (Tar.u32_to_bytes h.user_id ++ (Tar.u32_to_bytes h.group_id ++ (Tar.u64_to_bytes h.file_size ++ (Tar.i64_to_bytes h.last_modified ++ Tar.u32_to_bytes (Tar.HeaderLL.new h).calculate_checksum))))))) ++ (h.type_flag.as_byte :: (List.replicate 100 0 ++ List.replicate 255 0)) := by
      simp [hB, List.append_assoc]
    rw [e]
    exact getD_append_exact _ _ _ 156 (by
      simp [tar_u32_to_bytes_length, tar_u64_to_bytes_length,
        tar_i64_to_bytes_length, tar_path_to_bytes_length])
  have s157 : Bag.slice B 157 100 = List.replicate 100 0 := by
    have e : B = ((Tar.path_to_bytes h.file_name ++ (Tar.u32_to_bytes h.file_mode ++ (Tar.u32_to_bytes h.user_id ++ (Tar.u32_to_bytes h.group_id ++ (Tar.u64_to_bytes h.file_size ++ (Tar.i64_to_bytes h.last_modified ++ (Tar.u32_to_bytes (Tar.HeaderLL.new h).calculate_checksum ++ [h.type_flag.as_byte])))))))) ++ (List.replicate 100 0 ++ List.replicate 255 0) := by
      simp [hB, List.append_assoc]
    rw [e]
    exact slice_append_exact' _ _ _ 157 100 (by
      simp [tar_u32_to_bytes_length, tar_u64_to_bytes_length,
        tar_i64_to_bytes_length, tar_path_to_bytes_length])
      (List.length_replicate _ _)
  have hreg : Tar.recomputedRegion B = (Tar.HeaderLL.new h).to_bytes := by
    unfold Tar.recomputedRegion
    rw [s0, s100, s108, s116, s124, s136, g156, s157]
    simp [Tar.HeaderLL.to_bytes, Tar.HeaderLL.new, List.append_assoc]
  have hc32 : (Tar.HeaderLL.new h).calculate_checksum < 4294967296 :=
    crc32_lt (tar_to_bytes_mem_lt h hbytes)
  have hcrc : crc32 (Tar.recomputedRegion B) =
      (Tar.HeaderLL.new h).calculate_checksum := by
    rw [hreg]; rfl
  have hstored : Tar.bytes_to_u32 (Bag.slice B 148 8) =
      (Tar.HeaderLL.new h).calculate_checksum := by
    rw [s148]
    exact tar_u32_roundtrip _ hc32
  have e0 : Tar.bytes_to_path (Bag.slice B 0 100) = h.file_name := by
    rw [s0]
    exact tar_name_roundtrip _ hutf hnlen hnz
  have e1 : Tar.bytes_to_u32 (Bag.slice B 100 8) = h.file_mode := by
    rw [s100]; exact tar_u32_roundtrip _ hmode
  have e2 : Tar.bytes_to_u32 (Bag.slice B 108 8) = h.user_id := by
    rw [s108]; exact tar_u32_roundtrip _ huid
  have e3 : Tar.bytes_to_u32 (Bag.slice B 116 8) = h.group_id := by
    rw [s116]; exact tar_u32_roundtrip _ hgid
  have e4 : Tar.bytes_to_u64 (Bag.slice B 124 12) = h.file_size := by
    rw [s124]; exact tar_u64_roundtrip _ hsize
  have e5 : Tar.bytes_to_i64 (Bag.slice B 136 12) = h.last_modified := by
    rw [s136]; exact tar_i64_roundtrip _ hlm1 hlm2
  rw [hcrc, hstored, if_neg (by simp), g156, tar_from_byte_as_byte, e0, e1,
    e2, e3, e4, e5]

theorem recomputedRegion_eq (bs : List Nat) (hb : bs.length = 64) :
    Bag.recomputedRegion bs = Bag.slice bs 0 53 ++ [0, 0, 0, 0] := by
  have d1 : Bag.slice bs 0 53 = Bag.slice bs 0 8 ++ Bag.slice bs 8 45 := by
    have := slice_add bs 0 8 45; norm_num at this; exact this.symm
  have d2 : Bag.slice bs 8 45 = Bag.slice bs 8 8 ++ Bag.slice bs 16 37 := by
    have := slice_add bs 8 8 37; norm_num at this; exact this.symm
  have d3 : Bag.slice bs 16 37 = Bag.slice bs 16 4 ++ Bag.slice bs 20 33 := by
    have := slice_add bs 16 4 33; norm_num at this; exact this.symm
  have d4 : Bag.slice bs 20 33 = Bag.slice bs 20 4 ++ Bag.slice bs 24 29 := by
    have := slice_add bs 20 4 29; norm_num at this; exact this.symm
  have d5 : Bag.slice bs 24 29 = Bag.slice bs 24 4 ++ Bag.slice bs 28 25 := by
    have := slice_add bs 24 4 25; norm_num at this; exact this.symm
  have d6 : Bag.slice bs 28 25 = Bag.slice bs 28 8 ++ Bag.slice bs 36 17 := by
    have := slice_add bs 28 8 17; norm_num at this; exact this.symm
  have d7 : Bag.slice bs 36 17 = Bag.slice bs 36 8 ++ Bag.slice bs 44 9 := by
    have := slice_add bs 36 8 9; norm_num at this; exact this.symm
  have d8 : Bag.slice bs 44 9 = Bag.slice bs 44 1 ++ Bag.slice bs 45 8 := by
    have := slice_add bs 44 1 8; norm_num at this; exact this.symm
  rw [d1, d2, d3, d4, d5, d6, d7, d8, slice_one bs 44 (by omega)]
  unfold Bag.recomputedRegion
  simp [List.append_assoc]

theorem bag_deserialize_link_none (bs : List Nat) (r : Bag.FileHeader × Nat × Nat)
    (hok : Bag.FileHeader.deserialize bs = .ok r) : r.1.link_name = none := by
  by_cases hb : bs.length = 64
  · rw [deserialize_spec bs hb] at hok
    split at hok
    · exact absurd hok (by simp)
    · cases htf : Bag.TypeFlag.from_byte (bs.getD 44 0) with
      | error e => rw [htf] at hok; exact absurd hok (by simp)
      | ok tf =>
        rw [htf] at hok
        simp only [Except.ok.injEq] at hok
        rw [← hok]
  · unfold Bag.FileHeader.deserialize at hok
    rw [show Bag.FileHeaderLL.from_bytes bs = .error "Invalid header block length"
      from by unfold Bag.FileHeaderLL.from_bytes; rw [if_pos hb]] at hok
    exact absurd hok (by simp)

/-! ## Claim theorems -/

/-- C7: for each backend, `is_eoa` accepts exactly the all-zero block of
that backend's header size (64 bytes for BAG, 512 for TAR), while the
epilogue writer emits twice that many zero bytes (128 and 1024). -/
theorem is_eoa_iff_zero_block_and_epilogue_double :
    (∀ b : List Nat, Bag.is_eoa b = true ↔ b = List.replicate Bag.header_block_size 0) ∧
      Bag.EOF_MARKER = List.replicate (2 * Bag.header_block_size) 0 ∧
      (∀ b : List Nat, Tar.is_eoa b = true ↔ b = List.replicate Tar.header_block_size 0) ∧
      Tar.EOF_MARKER = List.replicate (2 * Tar.header_block_size) 0 := by
  refine ⟨fun b => ?_, by decide, fun b => ?_, by decide⟩
  · simp [Bag.is_eoa, Bag.header_block_size]
  · simp [Tar.is_eoa, Tar.header_block_size]

/-- C7 witness: the BAG and TAR end-of-archive detectors accept their
all-zero header blocks. -/
theorem is_eoa_iff_zero_block_and_epilogue_double_witness :
    Bag.is_eoa (List.replicate 64 0) = true ∧
      Tar.is_eoa (List.replicate 512 0) = true :=
  ⟨(is_eoa_iff_zero_block_and_epilogue_double.1 (List.replicate 64 0)).mpr rfl,
   (is_eoa_iff_zero_block_and_epilogue_double.2.2.1 (List.replicate 512 0)).mpr rfl⟩

/-- C9: the BAG path codec does not fail on invalid UTF-8 — evaluated at
the non-UTF-8 byte `0xFF`, `path_to_bytes` returns the empty byte vector
and `bytes_to_path` returns the empty path, with no error in either
direction (the callers in `bag/header.rs` and `bag.rs` apply `?` to these
results, expecting fallible functions). -/
theorem bag_path_codec_total_on_invalid_utf8 :
    utf8Valid [255] = false ∧ Bag.path_to_bytes [255] = [] ∧
      Bag.bytes_to_path [255] = [] := by
  decide

/-- C3: the TAR payload writer truncates at the first NUL byte — for the
3-byte file contents `68 00 69`, the bytes written after the header are
just `[104]`, not the 3 `file_size` bytes verbatim. -/
theorem tar_payload_truncated_at_nul :
    Tar.pack_file_payload [104, 0, 105] = [104] ∧
      ([104] : List Nat) ≠ [104, 0, 105] := by
  constructor
  · unfold Tar.pack_file_payload
    rw [Tar.pack_file_loop]
    norm_num
    rw [Tar.pack_file_loop]
    norm_num [List.takeWhile_cons]
  · decide

/-- C10 helper: the `file_size ≥ 8192` read loop panics (failed
`assert_eq!`) whenever the bytes remaining in the file fall short of the
bytes still expected. -/
theorem readLoop_short (n : Nat) :
    ∀ (remaining : List Nat) (total file_size : Nat) (acc : List (List Nat)),
      remaining.length = n → total + remaining.length < file_size →
      ArchiveFile.readLoop remaining total file_size acc = .panicked := by
  induction n using Nat.strong_induction_on with
  | _ n ih =>
    intro remaining total fs acc hn hshort
    rw [ArchiveFile.readLoop]
    rw [if_pos (by omega)]
    by_cases hk : min remaining.length 8192 = 0
    · rw [if_pos hk, if_neg (by omega)]
    · rw [if_neg hk]
      have hkpos : 0 < min remaining.length 8192 := Nat.pos_of_ne_zero hk
      have hlt : (remaining.drop (min remaining.length 8192)).length < n := by
        simp only [List.length_drop]
        omega
      exact ih _ hlt _ _ _ _ rfl (by simp only [List.length_drop]; omega)

/-- C10 counterexample: an empty file read with `file_size = 8192` makes
`read_file_chunked` panic via `assert_eq!` rather than return an error. -/
theorem read_file_chunked_panics_not_errors :
    ArchiveFile.read_file_chunked [] 8192 = .panicked ∧
      (ArchiveFile.read_file_chunked [] 8192).isError = false := by
  have h : ArchiveFile.read_file_chunked [] 8192 = .panicked := by
    unfold ArchiveFile.read_file_chunked
    rw [if_neg (show ¬(8192 < 8192) by omega)]
    exact readLoop_short 0 [] 0 8192 [] rfl (by simp)
  exact ⟨h, by rw [h]; rfl⟩

/-- C10 (amended): when the file's bytes fall short of `file_size`, the
chunked reader fails via `read_exact` (an error return) only in the
`file_size < 8192` branch; for `file_size ≥ 8192` the loop uses plain
`read` and the shortfall trips the `assert_eq!`, i.e. a panic, not an
error return. -/
theorem read_file_chunked_shortfall (contents : List Nat) (file_size : Nat)
    (hshort : contents.length < file_size) :
    (file_size < 8192 →
      ArchiveFile.read_file_chunked contents file_size =
        .ioError "Reading exact file size") ∧
    (8192 ≤ file_size →
      ArchiveFile.read_file_chunked contents file_size = .panicked) := by
  constructor
  · intro hlt
    unfold ArchiveFile.read_file_chunked
    rw [if_pos hlt, if_pos hshort]
  · intro hge
    unfold ArchiveFile.read_file_chunked
    rw [if_neg (by omega)]
    exact readLoop_short contents.length contents 0 file_size [] rfl (by omega)

/-- C10 witness: the amended claim applied to a 1-byte file announced as
5 bytes (error branch) and to an empty file announced as 8192 bytes
(panic branch). -/
theorem read_file_chunked_shortfall_witness :
    ArchiveFile.read_file_chunked [7] 5 = .ioError "Reading exact file size" ∧
      ArchiveFile.read_file_chunked [] 8192 = .panicked :=
  ⟨(read_file_chunked_shortfall [7] 5 (by norm_num)).1 (by norm_num),
   (read_file_chunked_shortfall [] 8192 (by norm_num)).2 (by norm_num)⟩

theorem process_file_ok_shape {h : Unpack.UHeader} {out : List String}
    {stream : List Nat} {acts : List Unpack.FsAction} {rest : List Nat}
    (hok : Unpack.process_file h out stream = .ok (acts, rest)) :
    ∃ filename parent_dirs data,
      Unpack.parse_path h.file_name = some (filename, parent_dirs) ∧
      acts =
        (if parent_dirs.isEmpty then ([] : List Unpack.FsAction)
         else [.createDirAll (out ++ parent_dirs)]) ++
          [.openTruncate ((if parent_dirs.isEmpty then out else out ++ parent_dirs) ++ [filename]),
           .writeBytes ((if parent_dirs.isEmpty then out else out ++ parent_dirs) ++ [filename]) data] := by
  unfold Unpack.process_file at hok
  cases hp : Unpack.parse_path h.file_name with
  | none => rw [hp] at hok; exact absurd hok (by simp)
  | some fp =>
    obtain ⟨filename, parent_dirs⟩ := fp
    rw [hp] at hok
    dsimp only at hok
    by_cases hpe : parent_dirs.isEmpty
    · simp only [hpe, if_true] at hok ⊢
      cases hpay : (if h.file_size < 8192 then
          if stream.length < h.file_size then none
          else some (stream.take h.file_size, stream.drop h.file_size)
        else Unpack.readExactChunks stream h.file_size) with
      | none => rw [hpay] at hok; exact absurd hok (by simp)
      | some dr =>
        obtain ⟨data, rest'⟩ := dr
        rw [hpay] at hok
        simp only [Except.ok.injEq, Prod.mk.injEq] at hok
        refine ⟨filename, parent_dirs, data, rfl, ?_⟩
        rcases hok with ⟨hacts, hrest⟩
        subst hacts
        simp only [List.isEmpty_iff] at hpe
        simp [hpe]
    · simp only [hpe, if_false] at hok ⊢
      cases hpay : (if h.file_size < 8192 then
          if stream.length < h.file_size then none
          else some (stream.take h.file_size, stream.drop h.file_size)
        else Unpack.readExactChunks stream h.file_size) with
      | none => rw [hpay] at hok; exact absurd hok (by simp)
      | some dr =>
        obtain ⟨data, rest'⟩ := dr
        rw [hpay] at hok
        simp only [Except.ok.injEq, Prod.mk.injEq] at hok
        refine ⟨filename, parent_dirs, data, rfl, ?_⟩
        rcases hok with ⟨hacts, hrest⟩
        subst hacts
        simp only [List.isEmpty_iff] at hpe
        simp [hpe, List.append_assoc]

/-- C1 (amended): for every archive entry — SymLink entries included — the
unpack driver materialises a regular file: it opens the destination path
with create+write+truncate and streams the stored `file_size` bytes into
it; it never creates a symbolic link (the stored link target is ignored). -/
theorem process_file_symlink_creates_regular_file
    (h : Unpack.UHeader) (out : List String) (stream : List Nat)
    (acts : List Unpack.FsAction) (rest : List Nat)
    (hok : Unpack.process_file h out stream = .ok (acts, rest))
    (_hsym : h.type_flag = .SymLink) :
    acts.any Unpack.FsAction.isCreateSymlink = false ∧
      acts.any Unpack.FsAction.isOpenTruncate = true := by
  obtain ⟨filename, parent_dirs, data, hp, hacts⟩ := process_file_ok_shape hok
  subst hacts
  by_cases hpe : parent_dirs.isEmpty <;>
    simp [hpe, Unpack.FsAction.isCreateSymlink, Unpack.FsAction.isOpenTruncate]

/-- C1 witness: the driver's output for a concrete SymLink entry contains
a truncating regular-file open and no symlink creation. -/
theorem process_file_symlink_creates_regular_file_witness :
    Unpack.process_file unpackSymlinkEntry ["out"] [] =
      .ok ([.openTruncate ["out", "link"], .writeBytes ["out", "link"] []], []) ∧
      unpackSymlinkEntry.type_flag = .SymLink ∧
      ([Unpack.FsAction.openTruncate ["out", "link"],
        Unpack.FsAction.writeBytes ["out", "link"] []].any
          Unpack.FsAction.isCreateSymlink = false ∧
        [Unpack.FsAction.openTruncate ["out", "link"],
         Unpack.FsAction.writeBytes ["out", "link"] []].any
          Unpack.FsAction.isOpenTruncate = true) :=
  ⟨by decide, rfl,
    process_file_symlink_creates_regular_file unpackSymlinkEntry ["out"] []
      [.openTruncate ["out", "link"], .writeBytes ["out", "link"] []] []
      (by decide) rfl⟩

/-- C1 counterexample: on a concrete SymLink entry (stored target
`hello.txt`) the driver's action list is a truncating regular-file open
followed by a zero-byte write — no symbolic-link creation appears. -/
theorem process_file_symlink_no_symlink_action :
    Unpack.process_file unpackSymlinkEntry ["out"] [] =
      .ok ([.openTruncate ["out", "link"], .writeBytes ["out", "link"] []], []) ∧
      ([Unpack.FsAction.openTruncate ["out", "link"],
        Unpack.FsAction.writeBytes ["out", "link"] []].any
          Unpack.FsAction.isCreateSymlink = false) := by
  decide

/-- C2 (amended): the unpack driver restores no metadata at all — after
materialising an entry its action trace contains no mode, ownership or
timestamp operation; the decoded `(created_at, last_modified)`, mode, uid
and gid are unused. -/
theorem process_file_no_metadata_restore
    (h : Unpack.UHeader) (out : List String) (stream : List Nat)
    (acts : List Unpack.FsAction) (rest : List Nat)
    (hok : Unpack.process_file h out stream = .ok (acts, rest)) :
    acts.any Unpack.FsAction.isMetadataRestore = false := by
  obtain ⟨filename, parent_dirs, data, hp, hacts⟩ := process_file_ok_shape hok
  subst hacts
  by_cases hpe : parent_dirs.isEmpty <;>
    simp [hpe, Unpack.FsAction.isMetadataRestore]

/-- C2 witness: the amended claim applied to a concrete regular entry. -/
theorem process_file_no_metadata_restore_witness :
    Unpack.process_file unpackRegularEntry ["out"] [65, 66] =
      .ok ([.createDirAll ["out", "d"], .openTruncate ["out", "d", "a"],
            .writeBytes ["out", "d", "a"] [65, 66]], []) ∧
      ([Unpack.FsAction.createDirAll ["out", "d"],
        Unpack.FsAction.openTruncate ["out", "d", "a"],
        Unpack.FsAction.writeBytes ["out", "d", "a"] [65, 66]].any
          Unpack.FsAction.isMetadataRestore = false) :=
  ⟨by decide,
    process_file_no_metadata_restore unpackRegularEntry ["out"] [65, 66]
      [.createDirAll ["out", "d"], .openTruncate ["out", "d", "a"],
       .writeBytes ["out", "d", "a"] [65, 66]] []
      (by decide)⟩

/-- C2 counterexample: on a concrete regular entry the driver's whole
action trace is directory creation, a truncating open and a write — it
contains no `setMode`, `setOwner` or `setTimes` action, although the
decoded header carries mode 0644, uid/gid 1000 and timestamps. -/
theorem process_file_metadata_dropped :
    Unpack.process_file unpackRegularEntry ["out"] [65, 66] =
      .ok ([.createDirAll ["out", "d"], .openTruncate ["out", "d", "a"],
            .writeBytes ["out", "d", "a"] [65, 66]], []) ∧
      ([Unpack.FsAction.createDirAll ["out", "d"],
        Unpack.FsAction.openTruncate ["out", "d", "a"],
        Unpack.FsAction.writeBytes ["out", "d", "a"] [65, 66]].any
          Unpack.FsAction.isMetadataRestore = false) := by
  decide

/-- C4 (amended): header round-trip. BAG: for every entry header with
fields in machine range, `deserialize (serialize m)` succeeds (the stored
checksum verifies), every non-path field comes back verbatim (`file_name`
cleared, `link_name = None`), and the byte lengths of the encoded name and
link name are returned for the caller to read separately. TAR: for headers
whose archive path is NUL-free valid UTF-8 of at most 100 bytes,
`deserialize (serialize m) = m` (the TAR header type itself stores no
`created_at` and no `link_name`). The NUL-free condition is forced by the
counterexample `tar_roundtrip_fails_on_nul_name`: the decoder NUL-trims
the fixed-width name field. -/
theorem header_codec_roundtrip :
    (∀ h : Bag.FileHeader,
      h.file_size < 18446744073709551616 →
      h.file_mode < 4294967296 →
      h.user_id < 4294967296 →
      h.group_id < 4294967296 →
      -9223372036854775808 ≤ h.created_at →
      h.created_at < 9223372036854775808 →
      -9223372036854775808 ≤ h.last_modified →
      h.last_modified < 9223372036854775808 →
      (Bag.path_to_bytes h.file_name).length < 18446744073709551616 →
      link_name_length h < 18446744073709551616 →
      Bag.FileHeader.deserialize (Bag.FileHeader.serialize h).header =
        .ok ({ h with file_name := [], link_name := none },
          (Bag.path_to_bytes h.file_name).length, link_name_length h)) ∧
    (∀ h : Tar.Header,
      h.file_mode < 4294967296 →
      h.user_id < 4294967296 →
      h.group_id < 4294967296 →
      h.file_size < 18446744073709551616 →
      -9223372036854775808 ≤ h.last_modified →
      h.last_modified < 9223372036854775808 →
      utf8Valid h.file_name = true →
      h.file_name.length ≤ 100 →
      0 ∉ h.file_name →
      (∀ b ∈ h.file_name, b < 256) →
      Tar.Header.deserialize (Tar.Header.serialize h) = .ok h) :=
  ⟨bag_roundtrip, tar_roundtrip⟩

/-- C4 witness: the round-trip applied to a concrete BAG header (name
`abc`, so name size 3 and link size 0 come back) and to a concrete TAR
header (file `x`, returned unchanged). -/
theorem header_codec_roundtrip_witness :
    Bag.FileHeader.deserialize (Bag.FileHeader.serialize bagExampleHeader).header =
      .ok ({ bagExampleHeader with file_name := [], link_name := none }, 3, 0) ∧
    Tar.Header.deserialize (Tar.Header.serialize tarExampleHeader) =
      .ok tarExampleHeader :=
  ⟨header_codec_roundtrip.1 bagExampleHeader (by decide) (by decide)
      (by decide) (by decide) (by decide) (by decide) (by decide)
      (by decide) (by decide) (by decide),
   header_codec_roundtrip.2 tarExampleHeader (by decide) (by decide)
      (by decide) (by decide) (by decide) (by decide) (by decide)
      (by decide) (by decide) (by decide)⟩

/-- C4 counterexample: the TAR name field is NUL-trimmed on decode, so the
2-byte path `61 00` (`a` followed by NUL, valid UTF-8, well under 100
bytes) does not round-trip: decoding the serialised header returns the
1-byte name `a` instead. -/
theorem tar_roundtrip_fails_on_nul_name :
    Tar.Header.deserialize (Tar.Header.serialize tarNulNameHeader) =
      .ok { tarNulNameHeader with file_name := [97] } ∧
    ({ tarNulNameHeader with file_name := [97] } : Tar.Header) ≠
      tarNulNameHeader := by
  constructor
  · decide
  · decide

/-- C5 (amended): BAG entry-header decoding verifies the CRC-32 over the
57-byte serialised field region of the block with the checksum field
zeroed — bytes 0..53 followed by four zero bytes; the padding bytes 57..64
are NOT covered (the claim as stated recomputes over the whole 64-byte
block, which the counterexample refutes). `deserialize` returns an error
reporting both stored and recomputed checksums exactly when they differ,
and never fails the checksum check when they agree. -/
theorem bag_checksum_verification (bs : List Nat) (hb : bs.length = 64) :
    Bag.recomputedRegion bs = Bag.slice bs 0 53 ++ [0, 0, 0, 0] ∧
    (crc32 (Bag.recomputedRegion bs) ≠ Bag.bytes_to_u32 (Bag.slice bs 53 4) →
      Bag.FileHeader.deserialize bs =
        .error (.checksumMismatch [] (Bag.bytes_to_u32 (Bag.slice bs 53 4))
          (crc32 (Bag.recomputedRegion bs)))) ∧
    (crc32 (Bag.recomputedRegion bs) = Bag.bytes_to_u32 (Bag.slice bs 53 4) →
      Bag.isChecksumMismatch (Bag.FileHeader.deserialize bs) = false) := by
  refine ⟨recomputedRegion_eq bs hb, ?_, ?_⟩
  · intro hne
    rw [deserialize_spec bs hb, if_pos hne]
  · intro he
    rw [deserialize_spec bs hb, if_neg (by simp [he])]
    cases htf : Bag.TypeFlag.from_byte (bs.getD 44 0) <;>
      simp [Bag.isChecksumMismatch]

/-- C5 witness: the amended claim applied to the serialised block of a
concrete header, whose stored checksum agrees with the recomputation over
the 57-byte field region, so decoding raises no checksum error. -/
theorem bag_checksum_verification_witness :
    Bag.recomputedRegion (Bag.FileHeader.serialize bagExampleHeader).header =
      Bag.slice (Bag.FileHeader.serialize bagExampleHeader).header 0 53 ++
        [0, 0, 0, 0] ∧
    Bag.isChecksumMismatch (Bag.FileHeader.deserialize
      (Bag.FileHeader.serialize bagExampleHeader).header) = false :=
  ⟨(bag_checksum_verification _ (by decide)).1,
   (bag_checksum_verification _ (by decide)).2.2 (by decide)⟩

/-- C5 counterexample: for the serialised block of a concrete header, the
stored checksum differs from CRC-32 of the whole 64-byte block with the
checksum field zeroed (the recomputation the claim describes), yet
`deserialize` raises no checksum error — the code checksums only the
57-byte field region. -/
theorem bag_checksum_ignores_padding :
    Bag.isChecksumMismatch (Bag.FileHeader.deserialize
      (Bag.FileHeader.serialize bagExampleHeader).header) = false ∧
    Bag.bytes_to_u32 (Bag.slice (Bag.FileHeader.serialize bagExampleHeader).header 53 4) ≠
      Bag.specBlockCrc (Bag.FileHeader.serialize bagExampleHeader).header := by
  constructor
  · decide
  · decide

/-- C6 (amended): the TAR encoder never rejects a long archive path — for
any valid-UTF-8 path longer than 100 bytes, `path_to_bytes` silently keeps
exactly the first 100 bytes, and for every header a full 512-byte block is
emitted whose first 100 bytes are the (possibly truncated) encoded name. -/
theorem tar_name_truncation (p : List Nat) (h : Tar.Header)
    (hutf : utf8Valid p = true) (hlong : 100 < p.length) :
    Tar.path_to_bytes p = p.take 100 ∧
    (Tar.Header.serialize h).length = 512 ∧
    (Tar.Header.serialize h).take 100 = Tar.path_to_bytes h.file_name := by
  refine ⟨?_, ?_, ?_⟩
  · unfold Tar.path_to_bytes
    rw [if_pos hutf, show 100 - min p.length 100 = 0 by omega]
    simp
  · rw [tar_serialize_block h]
    simp [tar_u32_to_bytes_length, tar_u64_to_bytes_length,
      tar_i64_to_bytes_length, tar_path_to_bytes_length]
  · rw [tar_serialize_block h,
      show (100 : Nat) = (Tar.path_to_bytes h.file_name).length from
        (tar_path_to_bytes_length _).symm,
      List.take_left]

/-- C6 witness: the amended claim applied to a 101-byte name of `a`s. -/
theorem tar_name_truncation_witness :
    Tar.path_to_bytes (List.replicate 101 97) = (List.replicate 101 97).take 100 ∧
    (Tar.Header.serialize tarLongNameHeader).length = 512 ∧
    (Tar.Header.serialize tarLongNameHeader).take 100 =
      Tar.path_to_bytes tarLongNameHeader.file_name :=
  tar_name_truncation (List.replicate 101 97) tarLongNameHeader (by decide)
    (by decide)

/-- C6 counterexample: a 101-byte archive path is not rejected at encode
time: `path_to_bytes` and `HeaderLL::new` keep the first 100 bytes, a full
header block is emitted carrying the truncated name, and the truncated
name differs from the original. -/
theorem tar_long_name_truncated_not_rejected :
    Tar.path_to_bytes (List.replicate 101 97) = List.replicate 100 97 ∧
    (Tar.HeaderLL.new tarLongNameHeader).file_name = List.replicate 100 97 ∧
    (Tar.Header.serialize tarLongNameHeader).take 100 = List.replicate 100 97 ∧
    (List.replicate 100 97 : List Nat) ≠ List.replicate 101 97 := by
  refine ⟨by decide, by decide, by decide, by decide⟩

/-- C8: BAG `unpack_header` consumes exactly `file_name_size` bytes from
the reader after the header block — whatever the entry's type flag and the
stored `link_name_size` — and the returned header's `link_name` is `None`. -/
theorem unpack_header_reads_only_name (block stream : List Nat)
    (h : Bag.FileHeader) (ns ls : Nat)
    (hdes : Bag.FileHeader.deserialize block = .ok (h, ns, ls))
    (hlen : ns ≤ stream.length) :
    Bag.unpack_header block stream =
      .ok ({ h with file_name := Bag.bytes_to_path (stream.take ns) },
        stream.drop ns) ∧
    ({ h with file_name := Bag.bytes_to_path (stream.take ns) } :
      Bag.FileHeader).link_name = none := by
  constructor
  · simp only [Bag.unpack_header, hdes]
    rw [if_neg (by omega)]
  · have := bag_deserialize_link_none block (h, ns, ls) hdes
    simpa using this

/-- C8 witness: unpacking a concrete serialised header (name size 3)
followed by the 3 name bytes `abc` consumes exactly those 3 bytes and
returns a header with `link_name = None`. -/
theorem unpack_header_reads_only_name_witness :
    Bag.unpack_header (Bag.FileHeader.serialize bagExampleHeader).header
        [97, 98, 99] =
      .ok ({ bagExampleHeader with
          file_name := Bag.bytes_to_path ([97, 98, 99].take 3),
          link_name := none }, [97, 98, 99].drop 3) ∧
    ({ bagExampleHeader with
        file_name := Bag.bytes_to_path ([97, 98, 99].take 3),
        link_name := none } : Bag.FileHeader).link_name = none :=
  unpack_header_reads_only_name (Bag.FileHeader.serialize bagExampleHeader).header
    [97, 98, 99] { bagExampleHeader with file_name := [], link_name := none }
    3 0 (by decide) (by decide)

end Packer
